import Mathlib

/-!
# Verification of the web-faas-builder build/deploy service

Shallow embedding of the service's core components, translated from the
Python sources:

* `src/models/manifest.py` — `ResourceLimits`, `Toleration`, `NodeAffinity`,
  `SpinAppManifest` and their construction-time validation;
* `src/services/manifest.py` — `ManifestService.to_yaml` / `from_yaml`;
* `src/api/routes.py` — the `/deploy` endpoint up to manifest construction;
* `src/services/dynamodb.py` — `BuildStatus`, `BuildTaskItem`
  (`to_dynamodb_item` / `from_dynamodb_item`), `DynamoDBService.get_task`;
* `src/services/file_handler.py` — `FileHandler.handle_zip`;
* `src/services/deploy.py` — `DeployService.get_service`;
* `src/services/push.py` — absent from the source tree (only its tests and
  callers are present); its `generate_tag` is modelled from the spec.

Machine-level details are modelled as follows: Python `str` is `String`,
`dict` (insertion ordered) is an association list, `None`-able values are
`Option`, raised exceptions are `Except`/`Option` results, and the YAML
text produced by `yaml.dump(..., sort_keys=False)` and consumed by
`yaml.safe_load` is modelled by the document tree itself (the dump/load
pair is faithful on these trees, so serialisation is the identity on the
tree).
-/

deriving instance DecidableEq for Except

/-! ## String utilities (Python `str` helpers) -/

/-- Occurrence test for a pattern inside a character list (`pat in hay`). -/
def subListOf (pat : List Char) : List Char → Bool
  | [] => pat.isEmpty
  | c :: cs => pat.isPrefixOf (c :: cs) || subListOf pat cs

/-- Python `pat in hay` on strings. -/
def strContains (hay pat : String) : Bool :=
  subListOf pat.data hay.data

/-- Remove the first occurrence of `pat` (Python `s.replace(pat, "", 1)`). -/
def removeFirstAux (pat : List Char) : List Char → List Char
  | [] => []
  | c :: cs =>
    if pat.isPrefixOf (c :: cs) then (c :: cs).drop pat.length
    else c :: removeFirstAux pat cs

/-- Python `s.replace(pat, "", 1)`. -/
def removeFirst (s pat : String) : String :=
  ⟨removeFirstAux pat.data s.data⟩

/-- Python truthiness-based default: `s or d` for strings. -/
def pyOr (s d : String) : String :=
  if s = "" then d else s

/-- Python `s.strip()`: drop leading and trailing whitespace. -/
def pyStrip (s : String) : String :=
  ⟨((s.data.dropWhile Char.isWhitespace).reverse.dropWhile Char.isWhitespace).reverse⟩

/-- Python `s.startswith(p)`. -/
def strIsPrefixOf (p s : String) : Bool :=
  p.data.isPrefixOf s.data

/-- Python `s.upper()` (ASCII, which covers the status values). -/
def pyUpper (s : String) : String :=
  ⟨s.data.map Char.toUpper⟩

/-- Python `s.lower()` (ASCII). -/
def pyLower (s : String) : String :=
  ⟨s.data.map Char.toLower⟩

/-! ## Manifest data model (`src/models/manifest.py`) -/

/-- Character span of decimal digits: returns the digit run and the rest. -/
def spanDigits : List Char → List Char × List Char
  | [] => ([], [])
  | c :: cs =>
    if c.isDigit then
      let p := spanDigits cs
      (c :: p.1, p.2)
    else ([], c :: cs)

/-- Accepts the optional unit suffix of the Kubernetes resource regex
`(m|Ki|Mi|Gi|Ti|Pi|Ei|k|M|G|T|P|E)?$`. -/
def resourceUnitOk : List Char → Bool
  | [] => true
  | ['m'] => true
  | ['k'] => true
  | ['M'] => true
  | ['G'] => true
  | ['T'] => true
  | ['P'] => true
  | ['E'] => true
  | ['K', 'i'] => true
  | ['M', 'i'] => true
  | ['G', 'i'] => true
  | ['T', 'i'] => true
  | ['P', 'i'] => true
  | ['E', 'i'] => true
  | _ => false

/-- `RESOURCE_FORMAT_PATTERN.match(value)`: the anchored regex
`[0-9]+(\.[0-9]+)?(m|Ki|Mi|Gi|Ti|Pi|Ei|k|M|G|T|P|E)?` over the whole
string. -/
def resourceFormatOk (s : String) : Bool :=
  let p := spanDigits s.data
  if p.1.isEmpty then false
  else
    match p.2 with
    | '.' :: r2 =>
      let q := spanDigits r2
      if q.1.isEmpty then false else resourceUnitOk q.2
    | r => resourceUnitOk r

/-- Errors raised by manifest-model construction (`ValueError`,
`ResourceValidationError`, `AutoscalingValidationError`). -/
inductive ManifestError where
  | nameEmpty
  | imageEmpty
  | replicasTooSmall
  | autoscalingConflict
  | resourceFormat (field_name value : String)
deriving DecidableEq, Repr

/-- Exception message of each manifest-model error, verbatim from the
source. -/
def ManifestError.message : ManifestError → String
  | .nameEmpty => "SpinApp name cannot be empty"
  | .imageEmpty => "SpinApp image cannot be empty"
  | .replicasTooSmall => "Replicas must be at least 1"
  | .autoscalingConflict =>
      "enableAutoscaling and replicas are mutually exclusive. When enableAutoscaling is true, replicas must not be specified."
  | .resourceFormat f v =>
      "Invalid resource format for " ++ f ++ ": \x27" ++ v ++
        "\x27. Expected format like \x27100m\x27, \x27128Mi\x27, \x271Gi\x27, etc."

/-- `ResourceLimits` dataclass (validation lives in `mkResourceLimits`). -/
structure ResourceLimits where
  cpu_limit : Option String := none
  memory_limit : Option String := none
  cpu_request : Option String := none
  memory_request : Option String := none
deriving DecidableEq, Repr

/-- `ResourceLimits.has_limits`. -/
def ResourceLimits.has_limits (r : ResourceLimits) : Bool :=
  r.cpu_limit.isSome || r.memory_limit.isSome

/-- `ResourceLimits.has_requests`. -/
def ResourceLimits.has_requests (r : ResourceLimits) : Bool :=
  r.cpu_request.isSome || r.memory_request.isSome

/-- `ResourceLimits.has_any`. -/
def ResourceLimits.has_any (r : ResourceLimits) : Bool :=
  r.has_limits || r.has_requests

/-- One field check of `ResourceLimits.__post_init__`. -/
def checkResField (o : Option String) (field_name : String) : Option ManifestError :=
  match o with
  | some v => if resourceFormatOk v then none else some (.resourceFormat field_name v)
  | none => none

/-- `ResourceLimits(...)`: dataclass construction including
`__post_init__` validation, in source order. -/
def mkResourceLimits (cpu_limit memory_limit cpu_request memory_request : Option String) :
    Except ManifestError ResourceLimits :=
  match checkResField cpu_limit "cpu_limit" with
  | some e => .error e
  | none =>
    match checkResField memory_limit "memory_limit" with
    | some e => .error e
    | none =>
      match checkResField cpu_request "cpu_request" with
      | some e => .error e
      | none =>
        match checkResField memory_request "memory_request" with
        | some e => .error e
        | none => .ok { cpu_limit, memory_limit, cpu_request, memory_request }

/-- `Toleration` dataclass. -/
structure Toleration where
  key : String
  operator : String := "Exists"
  effect : String := "NoSchedule"
  value : Option String := none
deriving DecidableEq, Repr

/-- `NodeSelectorRequirement` dataclass. -/
structure NodeSelectorRequirement where
  key : String
  operator : String
  values : List String := []
deriving DecidableEq, Repr

/-- `PreferredSchedulingTerm` dataclass. -/
structure PreferredSchedulingTerm where
  weight : Int
  match_expressions : List NodeSelectorRequirement := []
deriving DecidableEq, Repr

/-- `NodeAffinity` dataclass. -/
structure NodeAffinity where
  preferred_during_scheduling : List PreferredSchedulingTerm := []
deriving DecidableEq, Repr

/-- `validate_autoscaling_config`: returns `(is_valid, error_message)`. -/
def validate_autoscaling_config (enable_autoscaling : Bool) (replicas : Option Int) :
    Bool × Option String :=
  if enable_autoscaling && replicas.isSome then
    (false,
      some "enableAutoscaling and replicas are mutually exclusive. When enableAutoscaling is true, replicas must not be specified.")
  else (true, none)

/-- `SpinAppManifest` dataclass fields, with the dataclass defaults.
Python dicts (`labels`, `pod_labels`) are insertion-ordered association
lists. Construction-time validation lives in `mkSpinAppManifest`. -/
structure SpinAppManifest where
  name : String
  image : String
  «namespace» : String := "default"
  replicas : Option Int := none
  service_account : Option String := none
  resources : ResourceLimits := {}
  api_version : String := "core.spinkube.dev/v1alpha1"
  kind : String := "SpinApp"
  enable_autoscaling : Bool := true
  use_spot : Bool := true
  tolerations : List Toleration := []
  node_affinity : Option NodeAffinity := none
  labels : List (String × String) := [("app.kubernetes.io/managed-by", "blue-faas")]
  pod_labels : List (String × String) := [("faas", "true")]
deriving DecidableEq, Repr

/-- `SpinAppManifest(...)`: dataclass construction including
`__post_init__`, with the checks in source order (empty name, empty
image, replicas below 1 when autoscaling is disabled, then the
autoscaling/replicas mutual exclusion). -/
def mkSpinAppManifest (name «namespace» image : String) (replicas : Option Int)
    (service_account : Option String) (resources : ResourceLimits)
    (api_version kind : String) (enable_autoscaling use_spot : Bool)
    (tolerations : List Toleration) (node_affinity : Option NodeAffinity)
    (labels pod_labels : List (String × String)) :
    Except ManifestError SpinAppManifest :=
  if name = "" then .error .nameEmpty
  else if image = "" then .error .imageEmpty
  else if !enable_autoscaling &&
      (match replicas with | some n => decide (n < 1) | none => false) then
    .error .replicasTooSmall
  else if enable_autoscaling && replicas.isSome then .error .autoscalingConflict
  else
    .ok { name, image, «namespace», replicas, service_account, resources,
          api_version, kind, enable_autoscaling, use_spot, tolerations,
          node_affinity, labels, pod_labels }

/-- A configuration is valid when Python could have constructed the
`ResourceLimits` and the `SpinAppManifest` without an exception. -/
def ResourceLimits.valid (r : ResourceLimits) : Bool :=
  (checkResField r.cpu_limit "cpu_limit").isNone &&
  (checkResField r.memory_limit "memory_limit").isNone &&
  (checkResField r.cpu_request "cpu_request").isNone &&
  (checkResField r.memory_request "memory_request").isNone

/-- A `SpinAppManifest` value that Python construction would have
accepted (every such Python object satisfies this). -/
def validManifest (m : SpinAppManifest) : Bool :=
  m.name ≠ "" && m.image ≠ "" && m.resources.valid &&
  !(m.enable_autoscaling && m.replicas.isSome) &&
  (match m.replicas with | some n => decide (1 ≤ n) | none => true)

/-! ## YAML document trees (`src/services/manifest.py`)

The serializer builds a Python dict tree and emits it with
`yaml.dump(data, default_flow_style=False, sort_keys=False)`; the parser
reads it back with `yaml.safe_load`.  That dump/load pair is the identity
on trees of strings, ints, bools, lists and string-keyed dicts, so the
embedding works on the tree itself. -/

inductive Yaml where
  | null
  | str (s : String)
  | int (n : Int)
  | bool (b : Bool)
  | list (xs : List Yaml)
  | map (entries : List (String × Yaml))

/-- Dict lookup (`d[k]` / `d.get(k)`); dicts are association lists keyed
by their first binding. -/
def ylookup : List (String × Yaml) → String → Option Yaml
  | [], _ => none
  | (k, v) :: rest, key => if k = key then some v else ylookup rest key

/-- `ManifestService.DEFAULT_SPOT_TOLERATION`. -/
def DEFAULT_SPOT_TOLERATION : Toleration :=
  { key := "spot", operator := "Exists", effect := "NoSchedule" }

/-- `ManifestService.DEFAULT_SPOT_AFFINITY`. -/
def DEFAULT_SPOT_AFFINITY : NodeAffinity :=
  { preferred_during_scheduling :=
      [{ weight := 100,
         match_expressions :=
           [{ key := "spot", operator := "In", values := ["true"] }] }] }

/-- `ManifestService._toleration_to_dict`. -/
def tolerationToDict (t : Toleration) : Yaml :=
  .map ([("key", .str t.key), ("operator", .str t.operator), ("effect", .str t.effect)] ++
    (match t.value with | some v => [("value", .str v)] | none => []))

/-- `ManifestService._node_affinity_to_dict`. -/
def nodeAffinityToDict (a : NodeAffinity) : Yaml :=
  .map [("nodeAffinity",
    .map [("preferredDuringSchedulingIgnoredDuringExecution",
      .list (a.preferred_during_scheduling.map fun term =>
        .map [("weight", .int term.weight),
              ("preference",
                .map [("matchExpressions",
                  .list (term.match_expressions.map fun expr =>
                    .map [("key", .str expr.key),
                          ("operator", .str expr.operator),
                          ("values", .list (expr.values.map Yaml.str))]))])]))])]

/-- A string-valued dict (used for `labels` / `podLabels`). -/
def ymapStr (xs : List (String × String)) : Yaml :=
  .map (xs.map fun p => (p.1, .str p.2))

/-- One truthiness-guarded entry of the `resources` sub-dict
(`if value: d[key] = value`). -/
def resEntry (key : String) (v : Option String) : List (String × Yaml) :=
  match v with
  | some s => if s ≠ "" then [(key, Yaml.str s)] else []
  | none => []

/-- The `limits` sub-dict entries (`cpu`, `memory`). -/
def resLimitsEntries (r : ResourceLimits) : List (String × Yaml) :=
  resEntry "cpu" r.cpu_limit ++ resEntry "memory" r.memory_limit

/-- The `requests` sub-dict entries (`cpu`, `memory`). -/
def resRequestsEntries (r : ResourceLimits) : List (String × Yaml) :=
  resEntry "cpu" r.cpu_request ++ resEntry "memory" r.memory_request

/-- The `resources` sub-dict of `to_yaml`: `limits` appears only when
`has_limits()`, `requests` only when `has_requests()`, and each of the
four entries only when truthy. -/
def resourcesDict (r : ResourceLimits) : Yaml :=
  .map
    ((if r.has_limits then [("limits", Yaml.map (resLimitsEntries r))] else []) ++
     (if r.has_requests then [("requests", Yaml.map (resRequestsEntries r))] else []))

/-- `metadata.labels` chunk: present when the dict is truthy
(non-empty). -/
def labelsChunk (m : SpinAppManifest) : List (String × Yaml) :=
  if m.labels ≠ [] then [("labels", ymapStr m.labels)] else []

/-- `metadata` entries of `to_yaml`: `name`, `namespace`, then `labels`
when the dict is truthy (non-empty). -/
def metaEntries (m : SpinAppManifest) : List (String × Yaml) :=
  ("name", .str m.name) :: ("namespace", .str m.«namespace») :: labelsChunk m

/-- `spec.podLabels` chunk: present when `manifest.pod_labels` is truthy. -/
def podLabelsChunk (m : SpinAppManifest) : List (String × Yaml) :=
  if m.pod_labels ≠ [] then [("podLabels", ymapStr m.pod_labels)] else []

/-- `spec.replicas` chunk: present only when `enableAutoscaling` is false
and `replicas is not None`. -/
def replicasChunk (m : SpinAppManifest) : List (String × Yaml) :=
  if !m.enable_autoscaling then
    match m.replicas with
    | some n => [("replicas", .int n)]
    | none => []
  else []

/-- `spec.serviceAccountName` chunk: present when the field is truthy. -/
def serviceAccountChunk (m : SpinAppManifest) : List (String × Yaml) :=
  match m.service_account with
  | some s => if s ≠ "" then [("serviceAccountName", .str s)] else []
  | none => []

/-- `spec.resources` chunk: present when any resource value is set. -/
def resourcesChunk (m : SpinAppManifest) : List (String × Yaml) :=
  if m.resources.has_any then [("resources", resourcesDict m.resources)] else []

/-- Spot chunk of `to_yaml`: with `use_spot`, the default toleration is
prepended to the caller tolerations and the default affinity is added;
otherwise tolerations appear only when the caller supplied some. -/
def spotChunk (m : SpinAppManifest) : List (String × Yaml) :=
  if m.use_spot then
    [("tolerations",
      .list (tolerationToDict DEFAULT_SPOT_TOLERATION :: m.tolerations.map tolerationToDict)),
     ("affinity", nodeAffinityToDict DEFAULT_SPOT_AFFINITY)]
  else if m.tolerations ≠ [] then
    [("tolerations", .list (m.tolerations.map tolerationToDict))]
  else []

/-- Custom affinity chunk: present when `use_spot` is false and a node
affinity was supplied. -/
def affinityChunk (m : SpinAppManifest) : List (String × Yaml) :=
  if !m.use_spot then
    match m.node_affinity with
    | some a => [("affinity", nodeAffinityToDict a)]
    | none => []
  else []

/-- `spec` entries of `to_yaml`, in the insertion order of the source. -/
def specEntries (m : SpinAppManifest) : List (String × Yaml) :=
  ("image", .str m.image) :: ("enableAutoscaling", .bool m.enable_autoscaling) ::
  (podLabelsChunk m ++ (replicasChunk m ++ (serviceAccountChunk m ++
    (resourcesChunk m ++ (spotChunk m ++ affinityChunk m)))))

/-- Top-level entries of `to_yaml`, in the insertion order of the
source. -/
def dataEntries (m : SpinAppManifest) : List (String × Yaml) :=
  [("apiVersion", .str m.api_version), ("kind", .str m.kind),
   ("metadata", .map (metaEntries m)), ("spec", .map (specEntries m))]

/-- `ManifestService.to_yaml` as the emitted document tree. -/
def to_yaml (m : SpinAppManifest) : Yaml :=
  .map (dataEntries m)

/-- The `spec` mapping of an emitted document. -/
def specOf (y : Yaml) : Option (List (String × Yaml)) :=
  match y with
  | .map entries =>
    match ylookup entries "spec" with
    | some (.map s) => some s
    | _ => none
  | _ => none

/-! ## `ManifestService.from_yaml` -/

/-- `ManifestParseError` kinds (plus `typeError` for places where the
dynamically-typed source would store a value outside the typed field,
never produced by `to_yaml`). -/
inductive ManifestParseError where
  | emptyContent
  | notMapping
  | missingMetadata
  | metadataNotMapping
  | missingName
  | missingSpec
  | specNotMapping
  | missingImage
  | resourcesNotMapping
  | invalidResource (e : ManifestError)
  | tolerationsNotList
  | tolerationNotMapping
  | invalidManifest (e : ManifestError)
  | typeError
deriving DecidableEq, Repr

/-- Read a required string value (non-strings fall outside the typed
field model). -/
def parseStr (v : Yaml) : Except ManifestParseError String :=
  match v with
  | .str s => .ok s
  | _ => .error .typeError

/-- `d.get(k, default)` for a string field. -/
def parseStrD (o : Option Yaml) (d : String) : Except ManifestParseError String :=
  match o with
  | none => .ok d
  | some v => parseStr v

/-- `d.get(k)` for an optional string field (`null` loads as `None`). -/
def parseStrOpt (o : Option Yaml) : Except ManifestParseError (Option String) :=
  match o with
  | none => .ok none
  | some .null => .ok none
  | some (.str s) => .ok (some s)
  | some _ => .error .typeError

/-- `spec.get("enableAutoscaling", True)`. -/
def parseBoolD (o : Option Yaml) (d : Bool) : Except ManifestParseError Bool :=
  match o with
  | none => .ok d
  | some (.bool b) => .ok b
  | some _ => .error .typeError

/-- `spec.get("replicas")` (`null` loads as `None`). -/
def parseIntOpt (o : Option Yaml) : Except ManifestParseError (Option Int) :=
  match o with
  | none => .ok none
  | some .null => .ok none
  | some (.int n) => .ok (some n)
  | some _ => .error .typeError

/-- A string-valued dict, as stored into `labels` / `pod_labels`. -/
def parseStrMap (v : Yaml) : Except ManifestParseError (List (String × String)) :=
  match v with
  | .map entries => parseStrEntries entries
  | _ => .error .typeError
where
  parseStrEntries : List (String × Yaml) → Except ManifestParseError (List (String × String))
    | [] => .ok []
    | (k, .str s) :: rest =>
      match parseStrEntries rest with
      | .ok tail => .ok ((k, s) :: tail)
      | .error e => .error e
    | _ => .error .typeError

/-- The resource-limits block of `from_yaml`: absent `resources` yields
the default `ResourceLimits()`; otherwise `limits` / `requests` are read
defensively and re-validated through `ResourceLimits(...)`, with
validation errors wrapped as parse errors. -/
def parseResources (spec : List (String × Yaml)) : Except ManifestParseError ResourceLimits :=
  match ylookup spec "resources" with
  | none => .ok {}
  | some resVal =>
    match resVal with
    | .map res =>
      match readPair (ylookup res "limits") with
      | .error e => .error e
      | .ok (cpu_limit, memory_limit) =>
        match readPair (ylookup res "requests") with
        | .error e => .error e
        | .ok (cpu_request, memory_request) =>
          match mkResourceLimits cpu_limit memory_limit cpu_request memory_request with
          | .ok r => .ok r
          | .error e => .error (.invalidResource e)
    | _ => .error .resourcesNotMapping
where
  /-- `limits.get("cpu") if isinstance(limits, dict) else None`, twice. -/
  readPair (o : Option Yaml) : Except ManifestParseError (Option String × Option String) :=
    match o with
    | some (.map d) =>
      match parseStrOpt (ylookup d "cpu") with
      | .error e => .error e
      | .ok cpu =>
        match parseStrOpt (ylookup d "memory") with
        | .error e => .error e
        | .ok memory => .ok (cpu, memory)
    | _ => .ok (none, none)

/-- One toleration mapping of `from_yaml` (`t.get(...)` with dataclass
defaults). -/
def parseToleration (v : Yaml) : Except ManifestParseError Toleration :=
  match v with
  | .map t =>
    match parseStrD (ylookup t "key") "" with
    | .error e => .error e
    | .ok key =>
      match parseStrD (ylookup t "operator") "Exists" with
      | .error e => .error e
      | .ok operator =>
        match parseStrD (ylookup t "effect") "NoSchedule" with
        | .error e => .error e
        | .ok effect =>
          match parseStrOpt (ylookup t "value") with
          | .error e => .error e
          | .ok value => .ok { key, operator, effect, value }
  | _ => .error .tolerationNotMapping

/-- The tolerations block of `from_yaml`. -/
def parseTolerations (spec : List (String × Yaml)) : Except ManifestParseError (List Toleration) :=
  match ylookup spec "tolerations" with
  | none => .ok []
  | some tolVal =>
    match tolVal with
    | .list ts => parseEach ts
    | _ => .error .tolerationsNotList
where
  parseEach : List Yaml → Except ManifestParseError (List Toleration)
    | [] => .ok []
    | t :: rest =>
      match parseToleration t with
      | .error e => .error e
      | .ok tol =>
        match parseEach rest with
        | .error e => .error e
        | .ok tail => .ok (tol :: tail)

/-- One `matchExpressions` element of the affinity block (defensive
`expr.get(...)`; values that are not strings are skipped, mirroring that
the source stores them untyped and no claim depends on them). -/
def parseMatchExpr (v : Yaml) : Option NodeSelectorRequirement :=
  match v with
  | .map e =>
    some
      { key := match ylookup e "key" with | some (.str s) => s | _ => ""
        operator := match ylookup e "operator" with | some (.str s) => s | _ => "In"
        values := match ylookup e "values" with
          | some (.list vs) => vs.filterMap fun v => match v with | .str s => some s | _ => none
          | _ => [] }
  | _ => none

/-- One preferred-scheduling term of the affinity block; non-dict terms
are skipped. -/
def parsePreferredTerm (v : Yaml) : Option PreferredSchedulingTerm :=
  match v with
  | .map td =>
    some
      { weight := match ylookup td "weight" with | some (.int n) => n | _ => 1
        match_expressions :=
          match ylookup td "preference" with
          | some (.map p) =>
            match ylookup p "matchExpressions" with
            | some (.list es) => es.filterMap parseMatchExpr
            | _ => []
          | _ => [] }
  | _ => none

/-- The affinity block of `from_yaml`: entirely defensive, never fails;
yields a `NodeAffinity` only when at least one term was collected. -/
def parseAffinity (spec : List (String × Yaml)) : Option NodeAffinity :=
  match ylookup spec "affinity" with
  | some (.map a) =>
    match ylookup a "nodeAffinity" with
    | some (.map na) =>
      let terms :=
        match ylookup na "preferredDuringSchedulingIgnoredDuringExecution" with
        | some (.list ts) => ts.filterMap parsePreferredTerm
        | _ => []
      if terms ≠ [] then some { preferred_during_scheduling := terms } else none
    | _ => none
  | _ => none

/-- `ManifestService._has_default_spot_toleration`. -/
def hasDefaultSpotToleration (ts : List Toleration) : Bool :=
  ts.any fun t =>
    t.key = "spot" && t.operator = "Exists" && t.effect = "NoSchedule"

/-- Strip the default Spot toleration from the parsed list. -/
def stripDefaultSpot (ts : List Toleration) : List Toleration :=
  ts.filter fun t =>
    !(t.key = "spot" && t.operator = "Exists" && t.effect = "NoSchedule")

/-- The body of `from_yaml` after the required-field checks. -/
def fromYamlSpec (data metadata spec : List (String × Yaml)) (nameVal imageVal : Yaml) :
    Except ManifestParseError SpinAppManifest :=
  match parseResources spec with
  | .error e => .error e
  | .ok resources =>
    match parseBoolD (ylookup spec "enableAutoscaling") true with
    | .error e => .error e
    | .ok enable_autoscaling =>
      match parseIntOpt (ylookup spec "replicas") with
      | .error e => .error e
      | .ok replicas =>
        match parseTolerations spec with
        | .error e => .error e
        | .ok tolerations =>
          let node_affinity := parseAffinity spec
          let use_spot := hasDefaultSpotToleration tolerations
          let custom_tolerations := stripDefaultSpot tolerations
          match (match ylookup metadata "labels" with
                 | none => .ok [("app.kubernetes.io/managed-by", "blue-faas")]
                 | some v => parseStrMap v :
                   Except ManifestParseError (List (String × String))) with
          | .error e => .error e
          | .ok labels =>
            match (match ylookup spec "podLabels" with
                   | none => .ok [("faas", "true")]
                   | some v => parseStrMap v :
                     Except ManifestParseError (List (String × String))) with
            | .error e => .error e
            | .ok pod_labels =>
              match parseStrD (ylookup data "apiVersion") "core.spinoperator.dev/v1alpha1" with
              | .error e => .error e
              | .ok api_version =>
                match parseStrD (ylookup data "kind") "SpinApp" with
                | .error e => .error e
                | .ok kind =>
                  match parseStr nameVal with
                  | .error e => .error e
                  | .ok name =>
                    match parseStrD (ylookup metadata "namespace") "default" with
                    | .error e => .error e
                    | .ok ns =>
                      match parseStr imageVal with
                      | .error e => .error e
                      | .ok image =>
                        match parseStrOpt (ylookup spec "serviceAccountName") with
                        | .error e => .error e
                        | .ok service_account =>
                          match mkSpinAppManifest name ns image replicas
                              service_account resources api_version kind
                              enable_autoscaling use_spot custom_tolerations
                              (if use_spot then none else node_affinity)
                              labels pod_labels with
                          | .error e => .error (.invalidManifest e)
                          | .ok m => .ok m

/-- `ManifestService.from_yaml`: required-field checks in source order,
then field extraction and reconstruction. -/
def from_yaml (y : Yaml) : Except ManifestParseError SpinAppManifest :=
  match y with
  | .null => .error .emptyContent
  | .map data =>
    (match ylookup data "metadata" with
     | none => .error .missingMetadata
     | some metaVal =>
       match metaVal with
       | .map metadata =>
         (match ylookup metadata "name" with
          | none => .error .missingName
          | some nameVal =>
            match ylookup data "spec" with
            | none => .error .missingSpec
            | some specVal =>
              match specVal with
              | .map spec =>
                (match ylookup spec "image" with
                 | none => .error .missingImage
                 | some imageVal => fromYamlSpec data metadata spec nameVal imageVal)
              | _ => .error .specNotMapping)
       | _ => .error .metadataNotMapping)
  | _ => .error .notMapping

/-! ## The `/deploy` route (`src/api/routes.py`) up to manifest construction -/

/-- `DeployRequest` (`src/models/api_models.py`), with its pydantic
defaults.  `function_id` is read by the route (`request.function_id`)
although the pydantic model does not declare it; it is carried here as an
optional field so the route body can be expressed (the conflict-rejection
path settled by the claims never reaches that read). -/
structure DeployRequest where
  app_name : Option String := none
  «namespace» : String
  service_account : Option String := none
  cpu_limit : Option String := none
  memory_limit : Option String := none
  cpu_request : Option String := none
  memory_request : Option String := none
  image_ref : String
  enable_autoscaling : Bool := true
  replicas : Option Int := none
  use_spot : Bool := true
  custom_tolerations : List Toleration := []
  custom_affinity : Option NodeAffinity := none
  function_id : Option String := none
deriving DecidableEq, Repr

/-- Outcome of the `/deploy` handler up to manifest construction: an HTTP
error `(status, detail)` or the constructed `SpinAppManifest` (the later
kubectl stages are external collaborators).  `gen_name` stands for the
name `deploy_service.generate_app_name()` would produce when the request
carries no truthy `app_name`.  The route's parsing of
`custom_tolerations` dicts via `t.get(...)` with the `Toleration`
defaults is absorbed into the typed `custom_tolerations` field. -/
def deployHandler (req : DeployRequest) (gen_name : String) :
    Except (Nat × String) SpinAppManifest :=
  match validate_autoscaling_config req.enable_autoscaling req.replicas with
  | (false, some msg) => .error (400, msg)
  | _ =>
    let effective_replicas := if req.enable_autoscaling then none else req.replicas
    match mkResourceLimits req.cpu_limit req.memory_limit req.cpu_request req.memory_request with
    | .error e => .error (500, e.message)
    | .ok resources =>
      let app_name := pyOr (req.app_name.getD "") gen_name
      let pod_labels := [("faas", "true")] ++
        (match req.function_id with
         | some f => if f ≠ "" then [("function_id", f)] else []
         | none => [])
      match mkSpinAppManifest app_name req.«namespace» req.image_ref
          effective_replicas req.service_account resources
          "core.spinkube.dev/v1alpha1" "SpinApp"
          req.enable_autoscaling req.use_spot req.custom_tolerations none
          [("app.kubernetes.io/managed-by", "blue-faas")] pod_labels with
      | .error e => .error (500, e.message)
      | .ok m => .ok m

/-! ## `DeployService.get_service` (`src/services/deploy.py`) -/

/-- Outcome of the `kubectl get service` subprocess call: a completed
process with exit code and captured streams, a `TimeoutExpired`, a
`FileNotFoundError` (kubectl missing), or any other exception. -/
inductive KubectlOutcome where
  | completed (returncode : Int) (stdout : String) (stderr : String)
  | timeoutExpired
  | fileNotFound
  | otherError
deriving DecidableEq, Repr

/-- `ServiceQueryResult` dataclass. -/
structure ServiceQueryResult where
  service_status : String
  endpoint : Option String
deriving DecidableEq, Repr

/-- `DeployService.get_service`, as a function of the subprocess
outcome. -/
def get_service (app_name «namespace» : String) (o : KubectlOutcome) : ServiceQueryResult :=
  match o with
  | .completed returncode stdout stderr =>
    if returncode = 0 ∧ pyStrip stdout ≠ "" then
      let cluster_ip := pyStrip stdout
      if cluster_ip ≠ "" ∧ cluster_ip ≠ "None" then
        { service_status := "found",
          endpoint := some (app_name ++ "." ++ «namespace» ++ ".svc.cluster.local") }
      else { service_status := "pending", endpoint := none }
    else if returncode ≠ 0 then
      if strContains stderr "NotFound" = true ∨ strContains (pyLower stderr) "not found" = true then
        { service_status := "not_found", endpoint := none }
      else { service_status := "pending", endpoint := none }
    else { service_status := "pending", endpoint := none }
  | .timeoutExpired => { service_status := "pending", endpoint := none }
  | .fileNotFound => { service_status := "not_found", endpoint := none }
  | .otherError => { service_status := "not_found", endpoint := none }

/-! ## `FileHandler.handle_zip` (`src/services/file_handler.py`) -/

/-- The uploaded bytes, abstracted to what `handle_zip` observes of them:
not a zip at all (`is_zipfile` false), a zip that fails extraction
(`BadZipFile` from `extractall`), or a valid archive with its list of
member paths (relative file paths, as extracted into the scratch
directory). -/
inductive ZipData where
  | notZip
  | corrupt
  | valid (entries : List String)
deriving DecidableEq, Repr

/-- `FileHandlerResult` dataclass. -/
structure FileHandlerResult where
  success : Bool
  app_dir : Option String
  error : Option String
deriving DecidableEq, Repr

/-- `(work_dir / "spin.toml").exists()` after `extractall`: true when the
archive carries a root file `spin.toml`, or any entry nested under a
top-level `spin.toml/` directory (extraction then creates a directory of
that name, which `exists()` also reports). -/
def spinTomlExists (entries : List String) : Bool :=
  entries.any fun e => e = "spin.toml" || strIsPrefixOf "spin.toml/" e

/-- `FileHandler.handle_zip` over the abstracted archive. -/
def handle_zip (zip_data : ZipData) (work_dir : String) : FileHandlerResult :=
  match zip_data with
  | .notZip =>
    { success := false, app_dir := none, error := some "Invalid zip file format" }
  | .corrupt =>
    { success := false, app_dir := none, error := some "Invalid or corrupted zip file" }
  | .valid entries =>
    if spinTomlExists entries then
      { success := true, app_dir := some work_dir, error := none }
    else
      { success := false, app_dir := none,
        error := some "spin.toml not found in zip archive" }

/-! ## Task store (`src/services/dynamodb.py`) -/

/-- Acceptance test for the ISO-8601 timestamp strings exchanged through
the store.  It models `datetime.fromisoformat`: the formats emitted by
`datetime.isoformat()` — `YYYY-MM-DD`, optionally followed by
`THH:MM:SS` and an optional fraction of one to six digits — are accepted,
and strings such as `"garbage"` are rejected (in Python the rejection is
a raised `ValueError`).  Calendar range checks are not modelled. -/
def isoFracOk : List Char → Bool
  | [] => true
  | '.' :: ds => !ds.isEmpty && decide (ds.length ≤ 6) && ds.all Char.isDigit
  | _ => false

/-- Time-of-day part `HH:MM:SS` plus optional fraction. -/
def isoTimeOk : List Char → Bool
  | h1 :: h2 :: ':' :: m1 :: m2 :: ':' :: s1 :: s2 :: rest =>
    [h1, h2, m1, m2, s1, s2].all Char.isDigit && isoFracOk rest
  | _ => false

/-- Date part `YYYY-MM-DD`, alone or followed by `T` and a time. -/
def isoDateTimeOk : List Char → Bool
  | [y1, y2, y3, y4, '-', m1, m2, '-', d1, d2] =>
    [y1, y2, y3, y4, m1, m2, d1, d2].all Char.isDigit
  | y1 :: y2 :: y3 :: y4 :: '-' :: m1 :: m2 :: '-' :: d1 :: d2 :: 'T' :: rest =>
    [y1, y2, y3, y4, m1, m2, d1, d2].all Char.isDigit && isoTimeOk rest
  | _ => false

/-- String-level ISO-8601 acceptance. -/
def isoOk (s : String) : Bool :=
  isoDateTimeOk s.data

/-- A `datetime` value, carried by its `isoformat()` rendering (naive
datetimes render injectively, and `fromisoformat` inverts `isoformat`). -/
structure Datetime where
  iso : String
  valid : isoOk iso = true

theorem Datetime.ext_iso {a b : Datetime} (h : a.iso = b.iso) : a = b := by
  cases a; cases b; simp_all

instance : DecidableEq Datetime := fun a b =>
  if h : a.iso = b.iso then .isTrue (Datetime.ext_iso h)
  else .isFalse (fun hab => h (congrArg Datetime.iso hab))

/-- `datetime.isoformat()`. -/
def Datetime.isoformat (d : Datetime) : String := d.iso

/-- `datetime.fromisoformat(s)`: the parsed value, or `none` when Python
raises `ValueError`. -/
def fromisoformat (s : String) : Option Datetime :=
  if h : isoOk s then some ⟨s, h⟩ else none

/-- `BuildStatus` enum. -/
inductive BuildStatus where
  | PENDING
  | BUILDING
  | PUSHING
  | DONE
  | FAILED
deriving DecidableEq, Repr

/-- `status.value`. -/
def BuildStatus.value : BuildStatus → String
  | .PENDING => "PENDING"
  | .BUILDING => "BUILDING"
  | .PUSHING => "PUSHING"
  | .DONE => "DONE"
  | .FAILED => "FAILED"

/-- `BuildStatus(s)`: enum lookup by value, `none` when Python raises
`ValueError`. -/
def BuildStatus.ofValue : String → Option BuildStatus
  | "PENDING" => some .PENDING
  | "BUILDING" => some .BUILDING
  | "PUSHING" => some .PUSHING
  | "DONE" => some .DONE
  | "FAILED" => some .FAILED
  | _ => none

/-- A DynamoDB item: attribute name to its `"S"` string value (`some
none` models an attribute present without an `"S"` member; the writer
never produces one). -/
abbrev DynamoItem := List (String × Option String)

/-- Attribute lookup (`name in item` / `item[name]`). -/
def itemGet : DynamoItem → String → Option (Option String)
  | [], _ => none
  | (k, v) :: rest, key => if k = key then some v else itemGet rest key

/-- `BuildTaskItem` dataclass. -/
structure BuildTaskItem where
  workspace_id : String
  task_id : String
  app_name : String
  status : BuildStatus
  source_code_path : String
  created_at : Datetime
  updated_at : Datetime
  wasm_path : Option String := none
  image_url : Option String := none
  error_message : Option String := none
deriving DecidableEq

/-- `BuildTaskItem.generate_pk`. -/
def generate_pk (workspace_id : String) : String := "ws#" ++ workspace_id

/-- `BuildTaskItem.generate_sk`. -/
def generate_sk (task_id : String) : String := "build#" ++ task_id

/-- `BuildTaskItem.pk`. -/
def BuildTaskItem.pk (r : BuildTaskItem) : String := "ws#" ++ r.workspace_id

/-- `BuildTaskItem.sk`. -/
def BuildTaskItem.sk (r : BuildTaskItem) : String := "build#" ++ r.task_id

/-- Optional attribute written only when the field is truthy
(`if self.wasm_path: item[...] = ...`). -/
def optAttr (name : String) (v : Option String) : DynamoItem :=
  match v with
  | some s => if s ≠ "" then [(name, some s)] else []
  | none => []

/-- `BuildTaskItem.to_dynamodb_item`. -/
def to_dynamodb_item (r : BuildTaskItem) : DynamoItem :=
  [("PK", some r.pk), ("SK", some r.sk), ("Type", some "BuildTask"),
   ("AppName", some r.app_name), ("Status", some r.status.value),
   ("SourceCodePath", some r.source_code_path),
   ("CreatedAt", some r.created_at.isoformat),
   ("UpdatedAt", some r.updated_at.isoformat)] ++
  optAttr "WasmPath" r.wasm_path ++
  optAttr "ImageUrl" r.image_url ++
  optAttr "ErrorMessage" r.error_message

/-- `get_field(pascal, snake)`: the PascalCase attribute wins even when
it lacks an `"S"` member; otherwise the snake_case attribute is tried. -/
def getField (item : DynamoItem) (pascal snake : String) : Option String :=
  match itemGet item pascal with
  | some v => v
  | none =>
    match itemGet item snake with
    | some v => v
    | none => none

/-- The legacy status synonym table (`status_mapping.get(s, s)`). -/
def mapLegacyStatus (s : String) : String :=
  if s = "COMPLETED" then "DONE"
  else if s = "SUCCESS" then "DONE"
  else if s = "RUNNING" then "BUILDING"
  else if s = "IN_PROGRESS" then "BUILDING"
  else s

/-- Status decoding: default `"PENDING"` when absent or falsy, uppercase,
map legacy synonyms, and fall back to `PENDING` when the enum lookup
raises. -/
def decodeStatus (o : Option String) : BuildStatus :=
  let status_str := pyOr ((o.getD "")) "PENDING"
  match BuildStatus.ofValue (mapLegacyStatus (pyUpper status_str)) with
  | some st => st
  | none => .PENDING

/-- Failures of `from_dynamodb_item`: a `KeyError` on the required
`PK`/`SK` access, or the `ValueError` from `datetime.fromisoformat`. -/
inductive DecodeErr where
  | keyError
  | valueError
deriving DecidableEq, Repr

/-- `BuildTaskItem.from_dynamodb_item`; `now` stands for
`datetime.utcnow()`, used when a timestamp attribute is absent. -/
def from_dynamodb_item (now : Datetime) (item : DynamoItem) :
    Except DecodeErr BuildTaskItem :=
  match itemGet item "PK" with
  | some (some pk) =>
    match itemGet item "SK" with
    | some (some sk) =>
      let workspace_id := removeFirst (removeFirst pk "ws#") "WS#"
      let task_id := removeFirst (removeFirst sk "build#") "BUILD#"
      let status := decodeStatus (getField item "Status" "status")
      let created_str := pyOr ((getField item "CreatedAt" "created_at").getD "") now.isoformat
      let updated_str := pyOr ((getField item "UpdatedAt" "updated_at").getD "") now.isoformat
      match fromisoformat created_str with
      | none => .error .valueError
      | some created_at =>
        match fromisoformat updated_str with
        | none => .error .valueError
        | some updated_at =>
          .ok { workspace_id, task_id,
                app_name := pyOr ((getField item "AppName" "app_name").getD "") "unknown",
                status,
                source_code_path := pyOr ((getField item "SourceCodePath" "source_code_path").getD "") "",
                created_at, updated_at,
                wasm_path := getField item "WasmPath" "wasm_path",
                image_url := getField item "ImageUrl" "image_url",
                error_message := getField item "ErrorMessage" "error_message" }
    | _ => .error .keyError
  | _ => .error .keyError

/-- The persisted table, as a point lookup from `(PK, SK)`. -/
abbrev DynamoTable := String → String → Option DynamoItem

/-- The key-pair loop of `DynamoDBService.get_task`: a decode exception
inside the `try` block is swallowed and the next key format is tried. -/
def tryKeys (table : DynamoTable) (now : Datetime) :
    List (String × String) → Option BuildTaskItem
  | [] => none
  | (pk, sk) :: rest =>
    match table pk sk with
    | some item =>
      match from_dynamodb_item now item with
      | .ok r => some r
      | .error _ => tryKeys table now rest
    | none => tryKeys table now rest

/-- `DynamoDBService.get_task`: lowercase key formats first, then the
uppercase legacy variants, in the loop order of the source. -/
def get_task (table : DynamoTable) (now : Datetime) (workspace_id task_id : String) :
    Option BuildTaskItem :=
  tryKeys table now
    [("ws#" ++ workspace_id, "build#" ++ task_id),
     ("ws#" ++ workspace_id, "BUILD#" ++ task_id),
     ("WS#" ++ workspace_id, "build#" ++ task_id),
     ("WS#" ++ workspace_id, "BUILD#" ++ task_id)]

/-! ## Push service (`src/services/push.py`)

Modelled from the spec: `src/services/push.py` (class `PushService`) is
not present in the source tree — only its tests and its import from the
routes are.  Per the spec, *"Push produces a tag deterministically:
SHA-256 over the concatenation of all file contents in the tree, sorted
by path, then the first 12 lowercase hex chars.  A caller-supplied tag
overrides this.  The image reference is `<registry>/<repo>:<tag>`."*
SHA-256 itself is implemented below over `Nat` with explicit reduction
modulo `2^32`. -/

/-- Reduce modulo `2^32`. -/
def m32 (x : Nat) : Nat := x % 4294967296

/-- 32-bit rotate right by `n`. -/
def rotr (n x : Nat) : Nat := m32 (x / 2 ^ n + x % 2 ^ n * 2 ^ (32 - n))

/-- Logical shift right by `n`. -/
def shr (n x : Nat) : Nat := x / 2 ^ n

/-- 32-bit complement (operands are kept below `2^32`). -/
def not32 (x : Nat) : Nat := 4294967295 - x

/-- SHA-256 big sigma 0. -/
def bsig0 (x : Nat) : Nat := rotr 2 x ^^^ rotr 13 x ^^^ rotr 22 x

/-- SHA-256 big sigma 1. -/
def bsig1 (x : Nat) : Nat := rotr 6 x ^^^ rotr 11 x ^^^ rotr 25 x

/-- SHA-256 small sigma 0. -/
def ssig0 (x : Nat) : Nat := rotr 7 x ^^^ rotr 18 x ^^^ shr 3 x

/-- SHA-256 small sigma 1. -/
def ssig1 (x : Nat) : Nat := rotr 17 x ^^^ rotr 19 x ^^^ shr 10 x

/-- SHA-256 choice function. -/
def chf (e f g : Nat) : Nat := (e &&& f) ^^^ (not32 e &&& g)

/-- SHA-256 majority function. -/
def majf (a b c : Nat) : Nat := (a &&& b) ^^^ (a &&& c) ^^^ (b &&& c)

/-- The eight 32-bit words of the hash state. -/
structure Sha256State where
  a : Nat
  b : Nat
  c : Nat
  d : Nat
  e : Nat
  f : Nat
  g : Nat
  h : Nat
deriving DecidableEq, Repr

/-- SHA-256 initial hash state. -/
def sha256Init : Sha256State :=
  ⟨1779033703, 3144134277, 1013904242, 2773480762,
   1359893119, 2600822924, 528734635, 1541459225⟩

/-- SHA-256 round constants (the 64 standard words, in decimal). -/
def sha256K : List Nat :=
  [1116352408, 1899447441, 3049323471, 3921009573,
   961987163, 1508970993, 2453635748, 2870763221,
   3624381080, 310598401, 607225278, 1426881987,
   1925078388, 2162078206, 2614888103, 3248222580,
   3835390401, 4022224774, 264347078, 604807628,
   770255983, 1249150122, 1555081692, 1996064986,
   2554220882, 2821834349, 2952996808, 3210313671,
   3336571891, 3584528711, 113926993, 338241895,
   666307205, 773529912, 1294757372, 1396182291,
   1695183700, 1986661051, 2177026350, 2456956037,
   2730485921, 2820302411, 3259730800, 3345764771,
   3516065817, 3600352804, 4094571909, 275423344,
   430227734, 506948616, 659060556, 883997877,
   958139571, 1322822218, 1537002063, 1747873779,
   1955562222, 2024104815, 2227730452, 2361852424,
   2428436474, 2756734187, 3204031479, 3329325298]

/-- One compression round. -/
def sha256Round (st : Sha256State) (k w : Nat) : Sha256State :=
  let t1 := m32 (st.h + bsig1 st.e + chf st.e st.f st.g + k + w)
  let t2 := m32 (bsig0 st.a + majf st.a st.b st.c)
  ⟨m32 (t1 + t2), st.a, st.b, st.c, m32 (st.d + t1), st.e, st.f, st.g⟩

/-- Word of the message schedule at index `i`. -/
def wAt (w : List Nat) (i : Nat) : Nat := w.getD i 0

/-- Extend a 16-word block to the 64-word message schedule. -/
def buildW (block : List Nat) : List Nat :=
  (List.range 48).foldl
    (fun w _ =>
      w ++ [m32 (ssig1 (wAt w (w.length - 2)) + wAt w (w.length - 7) +
                 ssig0 (wAt w (w.length - 15)) + wAt w (w.length - 16))])
    block

/-- Compress one 16-word block into the state. -/
def compressBlock (st : Sha256State) (block : List Nat) : Sha256State :=
  let w := buildW block
  let t := ((w.zip sha256K).foldl (fun s p => sha256Round s p.2 p.1) st)
  ⟨m32 (st.a + t.a), m32 (st.b + t.b), m32 (st.c + t.c), m32 (st.d + t.d),
   m32 (st.e + t.e), m32 (st.f + t.f), m32 (st.g + t.g), m32 (st.h + t.h)⟩

/-- Merkle–Damgård padding: append `0x80`, zero fill to 56 mod 64, then
the 8-byte big-endian bit length. -/
def padMsg (msg : List Nat) : List Nat :=
  let L := msg.length
  let k := (119 - L % 64) % 64
  let bits := 8 * L
  msg ++ [0x80] ++ List.replicate k 0 ++
    [bits / 2 ^ 56 % 256, bits / 2 ^ 48 % 256, bits / 2 ^ 40 % 256,
     bits / 2 ^ 32 % 256, bits / 2 ^ 24 % 256, bits / 2 ^ 16 % 256,
     bits / 2 ^ 8 % 256, bits % 256]

/-- Big-endian 4-byte grouping into 32-bit words. -/
def bytesToWords : List Nat → List Nat
  | b0 :: b1 :: b2 :: b3 :: rest => (((b0 * 256 + b1) * 256 + b2) * 256 + b3) :: bytesToWords rest
  | _ => []

/-- Split the word stream into 16-word blocks. -/
def toBlocks (ws : List Nat) : List (List Nat) :=
  match ws with
  | [] => []
  | w :: rest => (w :: rest).take 16 :: toBlocks ((w :: rest).drop 16)
termination_by ws.length
decreasing_by simp; omega

/-- SHA-256 of a byte list. -/
def sha256 (msg : List Nat) : Sha256State :=
  (toBlocks (bytesToWords (padMsg msg))).foldl compressBlock sha256Init

/-- The lowercase hex alphabet. -/
def hexAlphabet : List Char := "0123456789abcdef".data

/-- Lowercase hex digit of `n % 16` (total, with an arbitrary hex-digit
fallback that keeps the image inside the hex alphabet). -/
def hexChar : Nat → Char
  | 0 => '0' | 1 => '1' | 2 => '2' | 3 => '3' | 4 => '4' | 5 => '5'
  | 6 => '6' | 7 => '7' | 8 => '8' | 9 => '9' | 10 => 'a' | 11 => 'b'
  | 12 => 'c' | 13 => 'd' | 14 => 'e' | 15 => 'f' | _ => '0'

/-- Eight lowercase hex digits of one 32-bit word. -/
def word32hexL (w : Nat) : List Char :=
  [hexChar (w / 16 ^ 7 % 16), hexChar (w / 16 ^ 6 % 16), hexChar (w / 16 ^ 5 % 16),
   hexChar (w / 16 ^ 4 % 16), hexChar (w / 16 ^ 3 % 16), hexChar (w / 16 ^ 2 % 16),
   hexChar (w / 16 % 16), hexChar (w % 16)]

/-- `hashlib.sha256(...).hexdigest()` as a character list (64 lowercase
hex digits). -/
def sha256hexL (msg : List Nat) : List Char :=
  let st := sha256 msg
  ([st.a, st.b, st.c, st.d, st.e, st.f, st.g, st.h].map word32hexL).flatten

/-- A source tree: relative file paths with byte contents. -/
abbrev SourceTree := List (String × List Nat)

/-- The tree sorted by path. -/
def sortByPath (t : SourceTree) : SourceTree :=
  List.insertionSort (fun a b => a.1 ≤ b.1) t

/-- Concatenation of all file contents, sorted by path. -/
def concatTree (t : SourceTree) : List Nat :=
  ((sortByPath t).map Prod.snd).flatten

/-- Modelled from the spec: `PushService.generate_tag` — SHA-256 over the
sorted concatenation, truncated to the first 12 lowercase hex chars. -/
def generate_tag (tree : SourceTree) : String :=
  ⟨(sha256hexL (concatTree tree)).take 12⟩

/-- Modelled from the spec: the image reference built by the push
operation, `<registry>/<repo>:<tag>` with the caller-supplied tag
overriding the generated one (`registry` carries the
`<registry>/<repo>` part, as in the tests). -/
def image_ref (registry : String) (tag : Option String) (tree : SourceTree) : String :=
  registry ++ ":" ++ (match tag with | some t => t | none => generate_tag tree)

/-! ## Concrete fixtures used by witness instantiations -/

/-- A concrete timestamp. -/
def dtA : Datetime := ⟨"2024-01-01T00:00:00", by decide⟩

/-- A later concrete timestamp. -/
def dtB : Datetime := ⟨"2024-01-01T00:00:01", by decide⟩

/-- A concrete "current time". -/
def dtNow : Datetime := ⟨"2024-01-02T00:00:00", by decide⟩

/-- A concrete task record. -/
def sampleTask : BuildTaskItem :=
  { workspace_id := "w", task_id := "t", app_name := "app",
    status := .PENDING, source_code_path := "s3://b/k",
    created_at := dtA, updated_at := dtB }

/-- A table holding `sampleTask` under its canonical key pair. -/
def sampleTable : DynamoTable := fun pk sk =>
  if pk = "ws#w" ∧ sk = "build#t" then some (to_dynamodb_item sampleTask) else none

/-! # Theorems -/

/-! ## Claim C9 — service query mapping -/

/-- Claim C9: `get_service` maps the cluster-CLI outcome as specified: a
zero exit with a non-empty ClusterIP different from "None" yields status
"found" with endpoint `<app_name>.<namespace>.svc.cluster.local`; a zero
exit with an empty or "None" ClusterIP yields "pending" with no
endpoint; a non-zero exit whose stderr indicates not-found yields
"not_found"; a timeout yields "pending"; a missing CLI executable yields
"not_found". -/
theorem get_service_state_mapping (app_name ns stdout stderr : String) (rc : Int) :
    (rc = 0 → pyStrip stdout ≠ "" → pyStrip stdout ≠ "None" →
      get_service app_name ns (.completed rc stdout stderr) =
        { service_status := "found",
          endpoint := some (app_name ++ "." ++ ns ++ ".svc.cluster.local") }) ∧
    (rc = 0 → (pyStrip stdout = "" ∨ pyStrip stdout = "None") →
      get_service app_name ns (.completed rc stdout stderr) =
        { service_status := "pending", endpoint := none }) ∧
    (rc ≠ 0 →
      (strContains stderr "NotFound" = true ∨ strContains (pyLower stderr) "not found" = true) →
      get_service app_name ns (.completed rc stdout stderr) =
        { service_status := "not_found", endpoint := none }) ∧
    (get_service app_name ns .timeoutExpired =
      { service_status := "pending", endpoint := none }) ∧
    (get_service app_name ns .fileNotFound =
      { service_status := "not_found", endpoint := none }) := by
  refine ⟨?_, ?_, ?_, rfl, rfl⟩
  · intro h0 h1 h2
    simp [get_service, h0, h1, h2]
  · intro h0 h
    rcases h with h | h <;> simp [get_service, h0, h]
  · intro h0 h
    simp only [get_service]
    rw [if_neg (by simp [h0]), if_pos h0, if_pos h]

/-- Witness for C9 at concrete subprocess outcomes. -/
theorem get_service_state_mapping_witness :
    (get_service "my-app" "default" (.completed 0 " 10.0.0.1 " "") =
      { service_status := "found", endpoint := some "my-app.default.svc.cluster.local" }) ∧
    (get_service "my-app" "default" (.completed 0 "None" "") =
      { service_status := "pending", endpoint := none }) ∧
    (get_service "my-app" "default" (.completed 1 "" "Error from server (NotFound): services") =
      { service_status := "not_found", endpoint := none }) :=
  ⟨(get_service_state_mapping "my-app" "default" " 10.0.0.1 " "" 0).1 rfl
      (by decide) (by decide),
   (get_service_state_mapping "my-app" "default" "None" "" 0).2.1 rfl
      (Or.inr (by decide)),
   (get_service_state_mapping "my-app" "default" ""
      "Error from server (NotFound): services" 1).2.2.1 (by decide)
      (Or.inl (by decide))⟩

/-! ## Claim C8 — zip ingestion -/

/-- Claim C8 counterexample: an archive whose only member is nested under
a top-level directory named `spin.toml/` contains no root project
descriptor, yet ingestion succeeds (after extraction the directory makes
`(work_dir / "spin.toml").exists()` true). -/
theorem handle_zip_claim_counterexample :
    (handle_zip (.valid ["spin.toml/x"]) "/tmp/work").success = true ∧
    (["spin.toml/x"].contains "spin.toml") = false := by
  decide

/-- Claim C8 (amended): ingestion succeeds — returning the scratch
directory — exactly when the bytes form a valid archive whose extraction
leaves a root entry named `spin.toml` (the descriptor file itself, or a
directory induced by entries nested under `spin.toml/`); otherwise it
fails with a descriptive error, mentioning `spin.toml` whenever the
archive was valid but no such root entry exists (in particular when the
descriptor sits only at depth greater than zero). -/
theorem handle_zip_amended (z : ZipData) (wd : String) :
    ((handle_zip z wd).success = true ↔
      ∃ es, z = .valid es ∧ spinTomlExists es = true) ∧
    (∀ es, z = .valid es → spinTomlExists es = true →
      handle_zip z wd = { success := true, app_dir := some wd, error := none }) ∧
    (∀ es, z = .valid es → spinTomlExists es = false →
      handle_zip z wd =
        { success := false, app_dir := none,
          error := some "spin.toml not found in zip archive" } ∧
      strContains "spin.toml not found in zip archive" "spin.toml" = true) ∧
    (z = .notZip ∨ z = .corrupt →
      (handle_zip z wd).success = false ∧ ((handle_zip z wd).error).isSome = true) := by
  refine ⟨?_, ?_, ?_, ?_⟩
  · cases z with
    | notZip => simp [handle_zip]
    | corrupt => simp [handle_zip]
    | valid es =>
      by_cases h : spinTomlExists es
      · simp [handle_zip, h]
      · simp [handle_zip, h]
  · intro es hz h
    subst hz
    simp [handle_zip, h]
  · intro es hz h
    subst hz
    refine ⟨by simp [handle_zip, h], by decide⟩
  · intro h
    rcases h with h | h <;> subst h <;> simp [handle_zip]

/-- Witness for C8 at concrete archives. -/
theorem handle_zip_amended_witness :
    (handle_zip (.valid ["spin.toml", "app.py"]) "/tmp/w" =
      { success := true, app_dir := some "/tmp/w", error := none }) ∧
    (handle_zip (.valid ["foo.py"]) "/tmp/w" =
      { success := false, app_dir := none,
        error := some "spin.toml not found in zip archive" }) :=
  ⟨(handle_zip_amended (.valid ["spin.toml", "app.py"]) "/tmp/w").2.1
      ["spin.toml", "app.py"] rfl (by decide),
   ((handle_zip_amended (.valid ["foo.py"]) "/tmp/w").2.2.1
      ["foo.py"] rfl (by decide)).1⟩

/-! ## Claim C1 — autoscaling/replicas mutual exclusion -/

/-- Claim C1 counterexample: a configuration with
`enable_autoscaling = true` and `replicas` set but an empty name fails
with the empty-name `ValueError`, whose message does not contain
"mutually exclusive" (the name check precedes the mutual-exclusion
check in `__post_init__`). -/
theorem manifest_conflict_counterexample :
    mkSpinAppManifest "" "r/x:1" "default" (some 3) none {}
        "core.spinkube.dev/v1alpha1" "SpinApp" true true [] none [] [] =
      .error .nameEmpty ∧
    strContains ManifestError.nameEmpty.message "mutually exclusive" = false := by
  constructor
  · rfl
  · decide

/-- Claim C1 (amended): for every configuration with
`enable_autoscaling = true`, `replicas` non-null and non-empty name and
image, construction fails with the dedicated
`AutoscalingValidationError` whose message contains "mutually
exclusive" (with an empty name or image the construction still fails,
but with the corresponding name/image error); and a POST `/deploy`
request carrying `enable_autoscaling = true` with `replicas` set is
rejected with HTTP 400 whose detail contains "mutually exclusive",
unconditionally and before any manifest is built. -/
theorem manifest_conflict_amended :
    (∀ (name ns image : String) (n : Int) (sa : Option String)
       (res : ResourceLimits) (api kd : String) (us : Bool)
       (tols : List Toleration) (na : Option NodeAffinity)
       (lb pl : List (String × String)),
       name ≠ "" → image ≠ "" →
       mkSpinAppManifest name ns image (some n) sa res api kd true us tols na lb pl =
         .error .autoscalingConflict ∧
       strContains ManifestError.autoscalingConflict.message "mutually exclusive" = true) ∧
    (∀ (req : DeployRequest) (gen : String) (n : Int),
       req.enable_autoscaling = true → req.replicas = some n →
       deployHandler req gen =
         .error (400,
           "enableAutoscaling and replicas are mutually exclusive. When enableAutoscaling is true, replicas must not be specified.") ∧
       strContains
         "enableAutoscaling and replicas are mutually exclusive. When enableAutoscaling is true, replicas must not be specified."
         "mutually exclusive" = true) := by
  constructor
  · intro name ns image n sa res api kd us tols na lb pl h1 h2
    refine ⟨?_, by decide⟩
    simp [mkSpinAppManifest, h1, h2]
  · intro req gen n h1 h2
    refine ⟨?_, by decide⟩
    simp [deployHandler, validate_autoscaling_config, h1, h2]

/-- Witness for C1 (amended) at a concrete configuration and request. -/
theorem manifest_conflict_amended_witness :
    (mkSpinAppManifest "my-app" "default" "r/x:1" (some 3) none {}
        "core.spinkube.dev/v1alpha1" "SpinApp" true true [] none [] [] =
      .error .autoscalingConflict) ∧
    (deployHandler
        { «namespace» := "default", image_ref := "r/x:1",
          enable_autoscaling := true, replicas := some 3 } "gen-name" =
      .error (400,
        "enableAutoscaling and replicas are mutually exclusive. When enableAutoscaling is true, replicas must not be specified.")) :=
  ⟨(manifest_conflict_amended.1 "my-app" "default" "r/x:1" 3 none {}
      "core.spinkube.dev/v1alpha1" "SpinApp" true [] none [] []
      (by decide) (by decide)).1,
   (manifest_conflict_amended.2
      { «namespace» := "default", image_ref := "r/x:1",
        enable_autoscaling := true, replicas := some 3 } "gen-name" 3
      rfl rfl).1⟩


/-! ## Lookup lemmas for the emitted document -/

theorem ylookup_cons (k' : String) (v : Yaml) (rest : List (String × Yaml)) (k : String) :
    ylookup ((k', v) :: rest) k = if k' = k then some v else ylookup rest k := rfl

theorem ylookup_append (a b : List (String × Yaml)) (k : String) :
    ylookup (a ++ b) k =
      match ylookup a k with
      | some v => some v
      | none => ylookup b k := by
  induction a with
  | nil => simp [ylookup]
  | cons p rest ih =>
    by_cases h : p.1 = k
    · rw [List.cons_append, show p = (p.1, p.2) from rfl, ylookup_cons, ylookup_cons,
        if_pos h, if_pos h]
    · rw [List.cons_append, show p = (p.1, p.2) from rfl, ylookup_cons, ylookup_cons,
        if_neg h, if_neg h]
      exact ih

theorem ylookup_append_none {a : List (String × Yaml)} (b : List (String × Yaml))
    (k : String) (h : ylookup a k = none) : ylookup (a ++ b) k = ylookup b k := by
  rw [ylookup_append, h]

theorem ylookup_none_of_keys (l : List (String × Yaml)) (k : String)
    (h : ∀ p ∈ l, p.1 ≠ k) : ylookup l k = none := by
  induction l with
  | nil => rfl
  | cons p rest ih =>
    rw [show p = (p.1, p.2) from rfl, ylookup_cons, if_neg (h p (List.mem_cons_self p rest))]
    exact ih fun q hq => h q (List.mem_cons_of_mem p hq)


theorem yl_one_eq (k : String) (v : Yaml) : ylookup [(k, v)] k = some v := by
  simp [ylookup]

theorem yl_one_ne (k' k : String) (v : Yaml) (h : k' ≠ k) : ylookup [(k', v)] k = none := by
  simp [ylookup, h]

theorem podLabelsChunk_lookup (m : SpinAppManifest) :
    ylookup (podLabelsChunk m) "podLabels" =
      if m.pod_labels ≠ [] then some (ymapStr m.pod_labels) else none := by
  unfold podLabelsChunk
  split
  · simp [ylookup]
  · rfl

theorem ylookup_append_some {a : List (String × Yaml)} (b : List (String × Yaml))
    (k : String) (v : Yaml) (h : ylookup a k = some v) : ylookup (a ++ b) k = some v := by
  rw [ylookup_append, h]

theorem podLabelsChunk_keys (m : SpinAppManifest) :
    ∀ p ∈ podLabelsChunk m, p.1 = "podLabels" := by
  unfold podLabelsChunk
  split <;> simp

theorem replicasChunk_keys (m : SpinAppManifest) :
    ∀ p ∈ replicasChunk m, p.1 = "replicas" := by
  unfold replicasChunk
  split
  · split <;> simp
  · simp

theorem serviceAccountChunk_keys (m : SpinAppManifest) :
    ∀ p ∈ serviceAccountChunk m, p.1 = "serviceAccountName" := by
  unfold serviceAccountChunk
  split
  · split <;> simp
  · simp

theorem resourcesChunk_keys (m : SpinAppManifest) :
    ∀ p ∈ resourcesChunk m, p.1 = "resources" := by
  unfold resourcesChunk
  split <;> simp

theorem spotChunk_keys (m : SpinAppManifest) :
    ∀ p ∈ spotChunk m, p.1 = "tolerations" ∨ p.1 = "affinity" := by
  unfold spotChunk
  split
  · simp
  · split <;> simp

theorem affinityChunk_keys (m : SpinAppManifest) :
    ∀ p ∈ affinityChunk m, p.1 = "affinity" := by
  unfold affinityChunk
  split
  · split <;> simp
  · simp

theorem ylookup_chunk_ne {l : List (String × Yaml)} {c : String} (k : String)
    (hkeys : ∀ p ∈ l, p.1 = c) (h : c ≠ k) : ylookup l k = none :=
  ylookup_none_of_keys l k fun p hp => (hkeys p hp) ▸ h

theorem spotChunk_lookup_ne (m : SpinAppManifest) (k : String)
    (h1 : "tolerations" ≠ k) (h2 : "affinity" ≠ k) :
    ylookup (spotChunk m) k = none :=
  ylookup_none_of_keys _ k fun p hp => by
    rcases spotChunk_keys m p hp with h | h <;> rw [h] <;> assumption

theorem replicasChunk_lookup (m : SpinAppManifest) :
    ylookup (replicasChunk m) "replicas" =
      if !m.enable_autoscaling then
        match m.replicas with
        | some n => some (.int n)
        | none => none
      else none := by
  unfold replicasChunk
  split
  · split
    · simp [ylookup]
    · rfl
  · rfl

theorem spec_lookup_replicas (m : SpinAppManifest) :
    ylookup (specEntries m) "replicas" =
      if !m.enable_autoscaling then
        match m.replicas with
        | some n => some (.int n)
        | none => none
      else none := by
  have htail : ylookup (serviceAccountChunk m ++
      (resourcesChunk m ++ (spotChunk m ++ affinityChunk m))) "replicas" = none := by
    rw [ylookup_append_none _ _ (ylookup_chunk_ne _ (serviceAccountChunk_keys m) (by decide)),
      ylookup_append_none _ _ (ylookup_chunk_ne _ (resourcesChunk_keys m) (by decide)),
      ylookup_append_none _ _ (spotChunk_lookup_ne m _ (by decide) (by decide)),
      ylookup_chunk_ne _ (affinityChunk_keys m) (by decide)]
  rw [specEntries, ylookup_cons, if_neg (by decide), ylookup_cons, if_neg (by decide),
    ylookup_append_none _ _ (ylookup_chunk_ne _ (podLabelsChunk_keys m) (by decide)),
    ylookup_append, replicasChunk_lookup]
  cases hb : m.enable_autoscaling with
  | false =>
    cases hr : m.replicas with
    | some n => simp
    | none => simp [htail]
  | true => simp [htail]

theorem spec_lookup_image (m : SpinAppManifest) :
    ylookup (specEntries m) "image" = some (.str m.image) := by
  rw [specEntries, ylookup_cons, if_pos rfl]

theorem spec_lookup_autoscaling (m : SpinAppManifest) :
    ylookup (specEntries m) "enableAutoscaling" = some (.bool m.enable_autoscaling) := by
  rw [specEntries, ylookup_cons, if_neg (by decide), ylookup_cons, if_pos rfl]

theorem spec_lookup_podLabels (m : SpinAppManifest) :
    ylookup (specEntries m) "podLabels" =
      if m.pod_labels ≠ [] then some (ymapStr m.pod_labels) else none := by
  have htail : ylookup (replicasChunk m ++ (serviceAccountChunk m ++
      (resourcesChunk m ++ (spotChunk m ++ affinityChunk m)))) "podLabels" = none := by
    rw [ylookup_append_none _ _ (ylookup_chunk_ne _ (replicasChunk_keys m) (by decide)),
      ylookup_append_none _ _ (ylookup_chunk_ne _ (serviceAccountChunk_keys m) (by decide)),
      ylookup_append_none _ _ (ylookup_chunk_ne _ (resourcesChunk_keys m) (by decide)),
      ylookup_append_none _ _ (spotChunk_lookup_ne m _ (by decide) (by decide)),
      ylookup_chunk_ne _ (affinityChunk_keys m) (by decide)]
  rw [specEntries, ylookup_cons, if_neg (by decide), ylookup_cons, if_neg (by decide),
    ylookup_append, podLabelsChunk_lookup]
  by_cases hp : m.pod_labels = []
  · simp [hp, htail]
  · simp [hp]

theorem serviceAccountChunk_lookup (m : SpinAppManifest) :
    ylookup (serviceAccountChunk m) "serviceAccountName" =
      match m.service_account with
      | some s => if s ≠ "" then some (.str s) else none
      | none => none := by
  unfold serviceAccountChunk
  split
  · split
    · simp [ylookup]
    · rfl
  · rfl

theorem spec_lookup_serviceAccount (m : SpinAppManifest) :
    ylookup (specEntries m) "serviceAccountName" =
      match m.service_account with
      | some s => if s ≠ "" then some (.str s) else none
      | none => none := by
  have htail : ylookup (resourcesChunk m ++ (spotChunk m ++ affinityChunk m))
      "serviceAccountName" = none := by
    rw [ylookup_append_none _ _ (ylookup_chunk_ne _ (resourcesChunk_keys m) (by decide)),
      ylookup_append_none _ _ (spotChunk_lookup_ne m _ (by decide) (by decide)),
      ylookup_chunk_ne _ (affinityChunk_keys m) (by decide)]
  rw [specEntries, ylookup_cons, if_neg (by decide), ylookup_cons, if_neg (by decide),
    ylookup_append_none _ _ (ylookup_chunk_ne _ (podLabelsChunk_keys m) (by decide)),
    ylookup_append_none _ _ (ylookup_chunk_ne _ (replicasChunk_keys m) (by decide)),
    ylookup_append, serviceAccountChunk_lookup]
  cases hs : m.service_account with
  | some s =>
    by_cases he : s = ""
    · simp [he, htail]
    · simp [he]
  | none => simp [htail]

theorem resourcesChunk_lookup (m : SpinAppManifest) :
    ylookup (resourcesChunk m) "resources" =
      if m.resources.has_any then some (resourcesDict m.resources) else none := by
  unfold resourcesChunk
  split
  · simp [ylookup]
  · rfl

theorem spec_lookup_resources (m : SpinAppManifest) :
    ylookup (specEntries m) "resources" =
      if m.resources.has_any then some (resourcesDict m.resources) else none := by
  have htail : ylookup (spotChunk m ++ affinityChunk m) "resources" = none := by
    rw [ylookup_append_none _ _ (spotChunk_lookup_ne m _ (by decide) (by decide)),
      ylookup_chunk_ne _ (affinityChunk_keys m) (by decide)]
  rw [specEntries, ylookup_cons, if_neg (by decide), ylookup_cons, if_neg (by decide),
    ylookup_append_none _ _ (ylookup_chunk_ne _ (podLabelsChunk_keys m) (by decide)),
    ylookup_append_none _ _ (ylookup_chunk_ne _ (replicasChunk_keys m) (by decide)),
    ylookup_append_none _ _ (ylookup_chunk_ne _ (serviceAccountChunk_keys m) (by decide)),
    ylookup_append, resourcesChunk_lookup]
  by_cases ha : m.resources.has_any
  · simp [ha]
  · simp [ha, htail]

theorem spotChunk_lookup_tolerations (m : SpinAppManifest) :
    ylookup (spotChunk m) "tolerations" =
      if m.use_spot then
        some (.list (tolerationToDict DEFAULT_SPOT_TOLERATION ::
          m.tolerations.map tolerationToDict))
      else if m.tolerations ≠ [] then
        some (.list (m.tolerations.map tolerationToDict))
      else none := by
  unfold spotChunk
  split
  · simp [ylookup]
  · split
    · simp [ylookup]
    · rfl

theorem spec_lookup_tolerations (m : SpinAppManifest) :
    ylookup (specEntries m) "tolerations" =
      if m.use_spot then
        some (.list (tolerationToDict DEFAULT_SPOT_TOLERATION ::
          m.tolerations.map tolerationToDict))
      else if m.tolerations ≠ [] then
        some (.list (m.tolerations.map tolerationToDict))
      else none := by
  have htail : ylookup (affinityChunk m) "tolerations" = none :=
    ylookup_chunk_ne _ (affinityChunk_keys m) (by decide)
  rw [specEntries, ylookup_cons, if_neg (by decide), ylookup_cons, if_neg (by decide),
    ylookup_append_none _ _ (ylookup_chunk_ne _ (podLabelsChunk_keys m) (by decide)),
    ylookup_append_none _ _ (ylookup_chunk_ne _ (replicasChunk_keys m) (by decide)),
    ylookup_append_none _ _ (ylookup_chunk_ne _ (serviceAccountChunk_keys m) (by decide)),
    ylookup_append_none _ _ (ylookup_chunk_ne _ (resourcesChunk_keys m) (by decide)),
    ylookup_append, spotChunk_lookup_tolerations]
  by_cases hu : m.use_spot
  · simp [hu]
  · by_cases ht : m.tolerations = []
    · simp [hu, ht, htail]
    · simp [hu, ht]

theorem spotChunk_lookup_affinity (m : SpinAppManifest) :
    ylookup (spotChunk m) "affinity" =
      if m.use_spot then some (nodeAffinityToDict DEFAULT_SPOT_AFFINITY) else none := by
  unfold spotChunk
  split
  · simp [ylookup]
  · split
    · simp [ylookup]
    · rfl

theorem affinityChunk_lookup (m : SpinAppManifest) :
    ylookup (affinityChunk m) "affinity" =
      if !m.use_spot then
        match m.node_affinity with
        | some a => some (nodeAffinityToDict a)
        | none => none
      else none := by
  unfold affinityChunk
  split
  · split
    · simp [ylookup]
    · rfl
  · rfl

theorem spec_lookup_affinity (m : SpinAppManifest) :
    ylookup (specEntries m) "affinity" =
      if m.use_spot then some (nodeAffinityToDict DEFAULT_SPOT_AFFINITY)
      else
        match m.node_affinity with
        | some a => some (nodeAffinityToDict a)
        | none => none := by
  rw [specEntries, ylookup_cons, if_neg (by decide), ylookup_cons, if_neg (by decide),
    ylookup_append_none _ _ (ylookup_chunk_ne _ (podLabelsChunk_keys m) (by decide)),
    ylookup_append_none _ _ (ylookup_chunk_ne _ (replicasChunk_keys m) (by decide)),
    ylookup_append_none _ _ (ylookup_chunk_ne _ (serviceAccountChunk_keys m) (by decide)),
    ylookup_append_none _ _ (ylookup_chunk_ne _ (resourcesChunk_keys m) (by decide)),
    ylookup_append, spotChunk_lookup_affinity]
  by_cases hu : m.use_spot
  · simp [hu]
  · rw [if_neg hu, affinityChunk_lookup]
    cases hn : m.node_affinity <;> simp [hu]

theorem meta_lookup_name (m : SpinAppManifest) :
    ylookup (metaEntries m) "name" = some (.str m.name) := by
  rw [metaEntries, ylookup_cons, if_pos rfl]

theorem meta_lookup_namespace (m : SpinAppManifest) :
    ylookup (metaEntries m) "namespace" = some (.str m.«namespace») := by
  rw [metaEntries, ylookup_cons, if_neg (by decide), ylookup_cons, if_pos rfl]

theorem meta_lookup_labels (m : SpinAppManifest) :
    ylookup (metaEntries m) "labels" =
      if m.labels ≠ [] then some (ymapStr m.labels) else none := by
  rw [metaEntries, ylookup_cons, if_neg (by decide), ylookup_cons, if_neg (by decide)]
  unfold labelsChunk
  split
  · simp [ylookup]
  · rfl

/-- `specOf` of an emitted document is its `spec` entry list. -/
theorem specOf_to_yaml (m : SpinAppManifest) :
    specOf (to_yaml m) = some (specEntries m) := by
  rw [to_yaml, specOf]
  rw [show ylookup (dataEntries m) "spec" = some (.map (specEntries m)) by
    simp [dataEntries, ylookup]]

/-! ## Claim C7 — replicas omission -/

/-- Claim C7: with `enable_autoscaling = true` the emitted document's
`spec` has no `replicas` key; a `replicas` key appears under `spec`
exactly when autoscaling is disabled and `replicas` is set (and then
carries that value). -/
theorem replicas_omission (m : SpinAppManifest) :
    (m.enable_autoscaling = true →
      ∃ s, specOf (to_yaml m) = some s ∧ ylookup s "replicas" = none) ∧
    (∀ s, specOf (to_yaml m) = some s →
      ((ylookup s "replicas").isSome = true ↔
        m.enable_autoscaling = false ∧ m.replicas.isSome = true)) ∧
    (∀ s n, specOf (to_yaml m) = some s → m.enable_autoscaling = false →
      m.replicas = some n → ylookup s "replicas" = some (.int n)) := by
  refine ⟨?_, ?_, ?_⟩
  · intro h
    exact ⟨specEntries m, specOf_to_yaml m, by rw [spec_lookup_replicas, h]; simp⟩
  · intro s hs
    rw [specOf_to_yaml m] at hs
    cases hs
    rw [spec_lookup_replicas]
    cases hb : m.enable_autoscaling
    · cases hr : m.replicas <;> simp
    · simp
  · intro s n hs hb hr
    rw [specOf_to_yaml m] at hs
    cases hs
    rw [spec_lookup_replicas, hb, hr]
    rfl

/-- Witness for C7 at concrete manifests. -/
theorem replicas_omission_witness :
    (∃ s, specOf (to_yaml { name := "n", image := "i" }) = some s ∧
      ylookup s "replicas" = none) ∧
    (∃ s, specOf (to_yaml { name := "n", image := "i", enable_autoscaling := false, replicas := some 2 }) = some s ∧
      ylookup s "replicas" = some (.int 2)) :=
  ⟨(replicas_omission { name := "n", image := "i" }).1 rfl,
   ⟨specEntries { name := "n", image := "i", enable_autoscaling := false, replicas := some 2 },
    specOf_to_yaml _,
    (replicas_omission { name := "n", image := "i", enable_autoscaling := false, replicas := some 2 }).2.2
      _ 2 (specOf_to_yaml _) rfl rfl⟩⟩

/-! ## Claim C6 — spot scheduling defaults -/

/-- Claim C6: with `use_spot = true` the emitted `spec.tolerations` lists
the default toleration `{key: "spot", operator: "Exists", effect:
"NoSchedule"}` first, followed by all caller-supplied tolerations (as
their dict renderings, verbatim), and `spec.affinity` prefers label
`spot in ["true"]` with weight 100 under
`nodeAffinity.preferredDuringSchedulingIgnoredDuringExecution`; with
`use_spot = false` and no caller-supplied tolerations or node affinity,
neither a `tolerations` nor an `affinity` entry appears. -/
theorem spot_configuration (m : SpinAppManifest) :
    (m.use_spot = true →
      ∃ s, specOf (to_yaml m) = some s ∧
        ylookup s "tolerations" =
          some (.list (.map [("key", .str "spot"), ("operator", .str "Exists"),
              ("effect", .str "NoSchedule")] ::
            m.tolerations.map tolerationToDict)) ∧
        ylookup s "affinity" =
          some (.map [("nodeAffinity",
            .map [("preferredDuringSchedulingIgnoredDuringExecution",
              .list [.map [("weight", .int 100),
                ("preference", .map [("matchExpressions",
                  .list [.map [("key", .str "spot"), ("operator", .str "In"),
                    ("values", .list [.str "true"])]])])]])])])) ∧
    (m.use_spot = false → m.tolerations = [] → m.node_affinity = none →
      ∃ s, specOf (to_yaml m) = some s ∧
        ylookup s "tolerations" = none ∧ ylookup s "affinity" = none) := by
  constructor
  · intro h
    refine ⟨specEntries m, specOf_to_yaml m, ?_, ?_⟩
    · rw [spec_lookup_tolerations, if_pos h]
      rfl
    · rw [spec_lookup_affinity, if_pos h]
      rfl
  · intro h ht hn
    refine ⟨specEntries m, specOf_to_yaml m, ?_, ?_⟩
    · rw [spec_lookup_tolerations, h, ht]
      simp
    · rw [spec_lookup_affinity, h, hn]
      simp

/-- Witness for C6 at concrete manifests (one custom toleration with
`use_spot`, and a bare `use_spot = false` manifest). -/
theorem spot_configuration_witness :
    (∃ s, specOf (to_yaml { name := "n", image := "i", tolerations := [{ key := "gpu", operator := "Equal", effect := "NoExecute", value := some "true" }] }) = some s ∧
      ylookup s "tolerations" =
        some (.list [.map [("key", .str "spot"), ("operator", .str "Exists"),
            ("effect", .str "NoSchedule")],
          .map [("key", .str "gpu"), ("operator", .str "Equal"),
            ("effect", .str "NoExecute"), ("value", .str "true")]]) ∧
      ylookup s "affinity" =
        some (.map [("nodeAffinity",
          .map [("preferredDuringSchedulingIgnoredDuringExecution",
            .list [.map [("weight", .int 100),
              ("preference", .map [("matchExpressions",
                .list [.map [("key", .str "spot"), ("operator", .str "In"),
                  ("values", .list [.str "true"])]])])]])])])) ∧
    (∃ s, specOf (to_yaml { name := "n", image := "i", use_spot := false }) = some s ∧
      ylookup s "tolerations" = none ∧ ylookup s "affinity" = none) :=
  ⟨(spot_configuration { name := "n", image := "i", tolerations := [{ key := "gpu", operator := "Equal", effect := "NoExecute", value := some "true" }] }).1 rfl,
   (spot_configuration { name := "n", image := "i", use_spot := false }).2
      rfl rfl rfl⟩

/-! ## Shared decode lemmas -/

theorem pyOr_ne {s : String} (d : String) (h : s ≠ "") : pyOr s d = s := if_neg h

theorem isoOk_ne_empty {s : String} (h : isoOk s = true) : s ≠ "" := by
  intro he
  subst he
  exact absurd h (by decide)

theorem fromisoformat_ok {s : String} (h : isoOk s = true) :
    fromisoformat s = some ⟨s, h⟩ := dif_pos h

theorem decodeStatus_absent : decodeStatus none = .PENDING := by decide

theorem decodeStatus_unknown (s : String)
    (h : BuildStatus.ofValue (mapLegacyStatus (pyUpper s)) = none) :
    decodeStatus (some s) = .PENDING := by
  unfold decodeStatus
  by_cases hs : s = ""
  · subst hs
    decide
  · simp only [Option.getD, pyOr_ne _ hs, h]

/-! ## Claim C4 — key schema, read priority, legacy status mapping -/

/-- Claim C4: the writer always emits `PK = "ws#"+workspace` and
`SK = "build#"+task` (both in the serialised item and through
`generate_pk`/`generate_sk` used by updates); the read path tries the
canonical lowercase key pair first and returns its decoded hit
regardless of what other key variants hold, falling back through the
uppercase legacy variants in loop order; and decoding maps the legacy
status values `COMPLETED`/`SUCCESS` to `DONE` and
`RUNNING`/`IN_PROGRESS` to `BUILDING`. -/
theorem store_key_schema :
    (∀ ws t : String, generate_pk ws = "ws#" ++ ws ∧ generate_sk t = "build#" ++ t) ∧
    (∀ r : BuildTaskItem,
      itemGet (to_dynamodb_item r) "PK" = some (some ("ws#" ++ r.workspace_id)) ∧
      itemGet (to_dynamodb_item r) "SK" = some (some ("build#" ++ r.task_id))) ∧
    (∀ (table : DynamoTable) (now : Datetime) (ws t : String)
       (item : DynamoItem) (r : BuildTaskItem),
      table ("ws#" ++ ws) ("build#" ++ t) = some item →
      from_dynamodb_item now item = .ok r →
      get_task table now ws t = some r) ∧
    (∀ (table : DynamoTable) (now : Datetime) (ws t : String)
       (item : DynamoItem) (r : BuildTaskItem),
      table ("ws#" ++ ws) ("build#" ++ t) = none →
      table ("ws#" ++ ws) ("BUILD#" ++ t) = none →
      table ("WS#" ++ ws) ("build#" ++ t) = none →
      table ("WS#" ++ ws) ("BUILD#" ++ t) = some item →
      from_dynamodb_item now item = .ok r →
      get_task table now ws t = some r) ∧
    (∀ (now : Datetime) (ws t st c u : String)
       (h1 : isoOk c = true) (h2 : isoOk u = true),
      (from_dynamodb_item now
          [("PK", some ("ws#" ++ ws)), ("SK", some ("build#" ++ t)),
           ("Status", some st), ("CreatedAt", some c), ("UpdatedAt", some u)]).map
        (fun r => r.status) = .ok (decodeStatus (some st))) ∧
    (decodeStatus (some "COMPLETED") = .DONE ∧ decodeStatus (some "SUCCESS") = .DONE ∧
     decodeStatus (some "RUNNING") = .BUILDING ∧
     decodeStatus (some "IN_PROGRESS") = .BUILDING) := by
  refine ⟨fun ws t => ⟨rfl, rfl⟩, ?_, ?_, ?_, ?_, by decide⟩
  · intro r
    constructor <;> simp [to_dynamodb_item, itemGet, BuildTaskItem.pk, BuildTaskItem.sk]
  · intro table now ws t item r h1 h2
    simp [get_task, tryKeys, h1, h2]
  · intro table now ws t item r h1 h2 h3 h4 h5
    simp [get_task, tryKeys, h1, h2, h3, h4, h5]
  · intro now ws t st c u h1 h2
    simp [from_dynamodb_item, getField, itemGet,
      pyOr_ne _ (isoOk_ne_empty h1), pyOr_ne _ (isoOk_ne_empty h2),
      fromisoformat_ok h1, fromisoformat_ok h2]
    rfl

/-- Witness for C4 at a concrete table, item and record. -/
theorem store_key_schema_witness :
    get_task sampleTable dtNow "w" "t" = some sampleTask :=
  store_key_schema.2.2.1 sampleTable dtNow "w" "t"
    (to_dynamodb_item sampleTask) sampleTask (by decide) (by decide)

/-! ## Claim C10 — decode totality and defaulting -/

/-- Claim C10 counterexample: a well-keyed item whose `CreatedAt` string
is not a parseable timestamp makes `from_dynamodb_item` raise
(`datetime.fromisoformat("garbage")` raises `ValueError`), so the decoder
is not total over well-keyed items with arbitrary attribute values. -/
theorem decode_total_counterexample :
    itemGet [("PK", some "ws#w"), ("SK", some "build#t"), ("CreatedAt", some "garbage")]
      "PK" = some (some "ws#w") ∧
    itemGet [("PK", some "ws#w"), ("SK", some "build#t"), ("CreatedAt", some "garbage")]
      "SK" = some (some "build#t") ∧
    from_dynamodb_item dtA
      [("PK", some "ws#w"), ("SK", some "build#t"), ("CreatedAt", some "garbage")] =
      .error .valueError := by
  decide

/-- Claim C10 (amended): `from_dynamodb_item` succeeds on every
well-keyed item whose timestamp attributes (after the absent-value
default to the current time) parse as ISO timestamps — `fromisoformat`
raises on unparseable timestamp strings, which is the one exception to
totality — and then: a `Status` string that is absent, or that after
uppercasing and legacy mapping names no enum member, decodes to
`PENDING`; a missing or empty `AppName` decodes to `"unknown"`; a
missing `SourceCodePath` decodes to `""`. -/
theorem decode_total_defaults :
    (∀ (now : Datetime) (item : DynamoItem) (pk sk : String),
      itemGet item "PK" = some (some pk) →
      itemGet item "SK" = some (some sk) →
      isoOk (pyOr ((getField item "CreatedAt" "created_at").getD "") now.isoformat) = true →
      isoOk (pyOr ((getField item "UpdatedAt" "updated_at").getD "") now.isoformat) = true →
      ∃ r, from_dynamodb_item now item = .ok r ∧
        r.status = decodeStatus (getField item "Status" "status") ∧
        r.app_name = pyOr ((getField item "AppName" "app_name").getD "") "unknown" ∧
        r.source_code_path =
          pyOr ((getField item "SourceCodePath" "source_code_path").getD "") "") ∧
    (decodeStatus none = .PENDING) ∧
    (∀ s, BuildStatus.ofValue (mapLegacyStatus (pyUpper s)) = none →
      decodeStatus (some s) = .PENDING) ∧
    (∀ o : Option String, o = none ∨ o = some "" →
      pyOr (o.getD "") "unknown" = "unknown") ∧
    (pyOr ((none : Option String).getD "") "" = "") := by
  refine ⟨?_, decodeStatus_absent, decodeStatus_unknown, ?_, by decide⟩
  · intro now item pk sk hpk hsk hc hu
    simp only [from_dynamodb_item, hpk, hsk, fromisoformat_ok hc, fromisoformat_ok hu]
    exact ⟨_, rfl, rfl, rfl, rfl⟩
  · intro o h
    rcases h with h | h <;> subst h <;> decide

/-- Witness for C10 at a concrete legacy-shaped item (uppercase keys,
unknown status value, empty app name, no source path, no timestamps). -/
theorem decode_total_defaults_witness :
    ∃ r, from_dynamodb_item dtNow
        [("PK", some "WS#w"), ("SK", some "BUILD#t"),
         ("Status", some "weird"), ("AppName", some "")] = .ok r ∧
      r.status = decodeStatus (getField
        [("PK", some "WS#w"), ("SK", some "BUILD#t"),
         ("Status", some "weird"), ("AppName", some "")] "Status" "status") ∧
      r.app_name = pyOr ((getField
        [("PK", some "WS#w"), ("SK", some "BUILD#t"),
         ("Status", some "weird"), ("AppName", some "")] "AppName" "app_name").getD "")
        "unknown" ∧
      r.source_code_path = pyOr ((getField
        [("PK", some "WS#w"), ("SK", some "BUILD#t"),
         ("Status", some "weird"), ("AppName", some "")]
          "SourceCodePath" "source_code_path").getD "") "" :=
  decode_total_defaults.1 dtNow
    [("PK", some "WS#w"), ("SK", some "BUILD#t"),
     ("Status", some "weird"), ("AppName", some "")]
    "WS#w" "BUILD#t" (by decide) (by decide) (by decide) (by decide)

/-! ## Claim C3 — store round trip -/

theorem itemGet_cons (k' : String) (v : Option String) (rest : DynamoItem) (k : String) :
    itemGet ((k', v) :: rest) k = if k' = k then some v else itemGet rest k := rfl

theorem itemGet_append (a b : DynamoItem) (k : String) :
    itemGet (a ++ b) k =
      match itemGet a k with
      | some v => some v
      | none => itemGet b k := by
  induction a with
  | nil => simp [itemGet]
  | cons p rest ih =>
    by_cases h : p.1 = k
    · rw [List.cons_append, show p = (p.1, p.2) from rfl, itemGet_cons, itemGet_cons,
        if_pos h, if_pos h]
    · rw [List.cons_append, show p = (p.1, p.2) from rfl, itemGet_cons, itemGet_cons,
        if_neg h, if_neg h]
      exact ih

theorem removeFirstAux_head (p rest : List Char) (h : p ≠ []) :
    removeFirstAux p (p ++ rest) = rest := by
  cases p with
  | nil => exact absurd rfl h
  | cons c cs =>
    rw [List.cons_append, removeFirstAux,
      if_pos (by rw [← List.cons_append]; exact List.isPrefixOf_iff_prefix.mpr (List.prefix_append _ _))]
    rw [← List.cons_append, List.drop_left]

theorem removeFirst_head (pat rest : String) (h : pat ≠ "") :
    removeFirst (pat ++ rest) pat = rest := by
  unfold removeFirst
  rw [show (pat ++ rest).data = pat.data ++ rest.data from String.data_append pat rest,
    removeFirstAux_head _ _ (fun hd => h (by cases pat with | mk d => cases hd; rfl))]

theorem removeFirstAux_of_not_contains (p l : List Char) (h : subListOf p l = false) :
    removeFirstAux p l = l := by
  induction l with
  | nil => rfl
  | cons c cs ih =>
    rw [subListOf, Bool.or_eq_false_iff] at h
    rw [removeFirstAux, if_neg (by rw [h.1]; exact Bool.false_ne_true)]
    rw [ih h.2]

theorem removeFirst_of_not_contains (s pat : String) (h : strContains s pat = false) :
    removeFirst s pat = s := by
  unfold removeFirst
  rw [removeFirstAux_of_not_contains _ _ h]

theorem pyOr_empty_right (s : String) : pyOr s "" = s := by
  unfold pyOr
  split
  · exact (by assumption : s = "").symm
  · rfl

theorem decodeStatus_value (st : BuildStatus) : decodeStatus (some st.value) = st := by
  cases st <;> decide

theorem fromisoformat_isoformat (d : Datetime) :
    fromisoformat d.isoformat = some d := by
  rw [Datetime.isoformat, fromisoformat_ok d.valid]

theorem itemGet_optAttr_self (n : String) (v : Option String) (h : v ≠ some "") :
    itemGet (optAttr n v) n =
      match v with
      | some s => some (some s)
      | none => none := by
  cases v with
  | none => rfl
  | some s =>
    rw [optAttr, if_pos (fun hs => h (by rw [hs])), itemGet_cons, if_pos rfl]

theorem itemGet_optAttr_ne (n k : String) (v : Option String) (h : n ≠ k) :
    itemGet (optAttr n v) k = none := by
  cases v with
  | none => rfl
  | some s =>
    rw [optAttr]
    split
    · rw [itemGet_cons, if_neg h]
      rfl
    · rfl

theorem itemGet_to_item_PK (r : BuildTaskItem) :
    itemGet (to_dynamodb_item r) "PK" = some (some ("ws#" ++ r.workspace_id)) := by
  simp [to_dynamodb_item, itemGet_append, itemGet_cons, itemGet, BuildTaskItem.pk]

theorem itemGet_to_item_SK (r : BuildTaskItem) :
    itemGet (to_dynamodb_item r) "SK" = some (some ("build#" ++ r.task_id)) := by
  simp [to_dynamodb_item, itemGet_append, itemGet_cons, itemGet, BuildTaskItem.sk]

theorem getField_to_item_appname (r : BuildTaskItem) :
    getField (to_dynamodb_item r) "AppName" "app_name" = some r.app_name := by
  simp [getField, to_dynamodb_item, itemGet_append, itemGet_cons, itemGet]

theorem getField_to_item_status (r : BuildTaskItem) :
    getField (to_dynamodb_item r) "Status" "status" = some r.status.value := by
  simp [getField, to_dynamodb_item, itemGet_append, itemGet_cons, itemGet]

theorem getField_to_item_scp (r : BuildTaskItem) :
    getField (to_dynamodb_item r) "SourceCodePath" "source_code_path" =
      some r.source_code_path := by
  simp [getField, to_dynamodb_item, itemGet_append, itemGet_cons, itemGet]

theorem getField_to_item_created (r : BuildTaskItem) :
    getField (to_dynamodb_item r) "CreatedAt" "created_at" = some r.created_at.iso := by
  simp [getField, to_dynamodb_item, itemGet_append, itemGet_cons, itemGet,
    Datetime.isoformat]

theorem getField_to_item_updated (r : BuildTaskItem) :
    getField (to_dynamodb_item r) "UpdatedAt" "updated_at" = some r.updated_at.iso := by
  simp [getField, to_dynamodb_item, itemGet_append, itemGet_cons, itemGet,
    Datetime.isoformat]

theorem getField_to_item_wasm (r : BuildTaskItem) (hw : r.wasm_path ≠ some "") :
    getField (to_dynamodb_item r) "WasmPath" "wasm_path" = r.wasm_path := by
  cases hv : r.wasm_path with
  | none =>
    simp [getField, to_dynamodb_item, itemGet_append, itemGet_cons, itemGet,
      itemGet_optAttr_self, itemGet_optAttr_ne, hv]
  | some s =>
    have hs : (some s : Option String) ≠ some "" := fun hh => hw (by rw [hv, hh])
    simp [getField, to_dynamodb_item, itemGet_append, itemGet_cons, itemGet,
      itemGet_optAttr_self _ _ hs, itemGet_optAttr_ne, hv]

theorem getField_to_item_image (r : BuildTaskItem) (hi : r.image_url ≠ some "") :
    getField (to_dynamodb_item r) "ImageUrl" "image_url" = r.image_url := by
  cases hv : r.image_url with
  | none =>
    simp [getField, to_dynamodb_item, itemGet_append, itemGet_cons, itemGet,
      itemGet_optAttr_self, itemGet_optAttr_ne, hv]
  | some s =>
    have hs : (some s : Option String) ≠ some "" := fun hh => hi (by rw [hv, hh])
    simp [getField, to_dynamodb_item, itemGet_append, itemGet_cons, itemGet,
      itemGet_optAttr_self _ _ hs, itemGet_optAttr_ne, hv]

theorem getField_to_item_error (r : BuildTaskItem) (he : r.error_message ≠ some "") :
    getField (to_dynamodb_item r) "ErrorMessage" "error_message" = r.error_message := by
  cases hv : r.error_message with
  | none =>
    simp [getField, to_dynamodb_item, itemGet_append, itemGet_cons, itemGet,
      itemGet_optAttr_self, itemGet_optAttr_ne, hv]
  | some s =>
    have hs : (some s : Option String) ≠ some "" := fun hh => he (by rw [hv, hh])
    simp [getField, to_dynamodb_item, itemGet_append, itemGet_cons, itemGet,
      itemGet_optAttr_self _ _ hs, itemGet_optAttr_ne, hv]

theorem fromisoformat_iso (d : Datetime) : fromisoformat d.iso = some d := by
  rw [fromisoformat_ok d.valid]

/-- Claim C3 counterexample: a record whose optional `wasm_path` is set
to the empty string is not preserved — the writer only emits truthy
optional attributes, so the decoder returns `None` for that field. -/
theorem store_roundtrip_counterexample :
    (from_dynamodb_item dtNow
        (to_dynamodb_item { sampleTask with wasm_path := some "" })).map
      (fun r => r.wasm_path) = .ok none ∧
    ({ sampleTask with wasm_path := some "" } : BuildTaskItem).wasm_path = some "" ∧
    from_dynamodb_item dtNow (to_dynamodb_item { sampleTask with wasm_path := some "" }) ≠
      .ok { sampleTask with wasm_path := some "" } := by
  decide

/-- Claim C3 (amended): `to_dynamodb_item` followed by
`from_dynamodb_item` preserves every field of the record, provided the
workspace id contains no `"WS#"`, the task id contains no `"BUILD#"`
(the tolerant key stripping removes such substrings), the app name is
non-empty (an empty one decodes to `"unknown"`), and each optional field
is either absent or a non-empty string (falsy values are not written).
Every other field — status, both timestamps, the source path — round
trips unconditionally. -/
theorem store_roundtrip (r : BuildTaskItem) (now : Datetime)
    (hws : strContains r.workspace_id "WS#" = false)
    (ht : strContains r.task_id "BUILD#" = false)
    (ha : r.app_name ≠ "")
    (hw : r.wasm_path ≠ some "")
    (hi : r.image_url ≠ some "")
    (he : r.error_message ≠ some "") :
    from_dynamodb_item now (to_dynamodb_item r) = .ok r := by
  simp only [from_dynamodb_item, itemGet_to_item_PK, itemGet_to_item_SK,
    getField_to_item_appname, getField_to_item_status, getField_to_item_scp,
    getField_to_item_created, getField_to_item_updated,
    getField_to_item_wasm r hw, getField_to_item_image r hi,
    getField_to_item_error r he, Option.getD]
  simp only [pyOr_ne _ (isoOk_ne_empty r.created_at.valid),
    pyOr_ne _ (isoOk_ne_empty r.updated_at.valid),
    fromisoformat_iso, pyOr_ne _ ha, pyOr_empty_right, decodeStatus_value]
  rw [removeFirst_head _ _ (by decide), removeFirst_head _ _ (by decide),
    removeFirst_of_not_contains _ _ hws, removeFirst_of_not_contains _ _ ht]

/-- Witness for C3 (amended) at a concrete record. -/
theorem store_roundtrip_witness :
    from_dynamodb_item dtNow (to_dynamodb_item sampleTask) = .ok sampleTask :=
  store_roundtrip sampleTask dtNow (by decide) (by decide) (by decide)
    (by decide) (by decide) (by decide)

/-! ## Claim C5 — push tag determinism -/

/-- Sorting by path is canonical on trees with distinct paths: any two
permutations of one another sort identically. -/
theorem sortByPath_eq_of_perm (t1 t2 : SourceTree) (hp : t1.Perm t2)
    (hn : (t1.map Prod.fst).Nodup) : sortByPath t1 = sortByPath t2 := by
  haveI : IsTotal (String × List Nat) (fun a b => a.1 ≤ b.1) :=
    ⟨fun a b => le_total a.1 b.1⟩
  haveI : IsTrans (String × List Nat) (fun a b => a.1 ≤ b.1) :=
    ⟨fun _ _ _ hab hbc => le_trans hab hbc⟩
  haveI : IsAntisymm (String × List Nat) (fun a b => a.1 < b.1) :=
    ⟨fun _ _ h1 h2 => absurd h2 (lt_asymm h1)⟩
  have hs1 : (sortByPath t1).Sorted (fun a b => a.1 ≤ b.1) :=
    List.sorted_insertionSort _ t1
  have hs2 : (sortByPath t2).Sorted (fun a b => a.1 ≤ b.1) :=
    List.sorted_insertionSort _ t2
  have hp1 : (sortByPath t1).Perm t1 := List.perm_insertionSort _ t1
  have hp2 : (sortByPath t2).Perm t2 := List.perm_insertionSort _ t2
  have hperm : (sortByPath t1).Perm (sortByPath t2) :=
    (hp1.trans hp).trans hp2.symm
  have hn1 : ((sortByPath t1).map Prod.fst).Nodup :=
    ((hp1.map Prod.fst).nodup_iff).mpr hn
  have hn2 : ((sortByPath t2).map Prod.fst).Nodup :=
    ((hperm.map Prod.fst).nodup_iff).mp hn1
  have strict : ∀ (l : SourceTree), l.Sorted (fun a b => a.1 ≤ b.1) →
      (l.map Prod.fst).Nodup → l.Sorted (fun a b => a.1 < b.1) := by
    intro l hs hnd
    have hne : l.Pairwise (fun a b => a.1 ≠ b.1) := List.pairwise_map.mp hnd
    exact (hs.and hne).imp fun h => lt_of_le_of_ne h.1 h.2
  exact List.eq_of_perm_of_sorted hperm (strict _ hs1 hn1) (strict _ hs2 hn2)

/-- Every hex digit produced lands in the lowercase hex alphabet. -/
theorem hexChar_mem (n : Nat) :
    hexChar n ∈ hexAlphabet := by
  unfold hexChar
  split <;> decide

/-- The hex digest has 64 characters. -/
theorem sha256hexL_length (msg : List Nat) : (sha256hexL msg).length = 64 := by
  unfold sha256hexL
  simp [word32hexL]

/-- Every character of the hex digest is a lowercase hex digit. -/
theorem sha256hexL_mem (msg : List Nat) :
    ∀ c ∈ sha256hexL msg,
      c ∈ hexAlphabet := by
  intro c hc
  unfold sha256hexL at hc
  rcases List.mem_flatten.mp hc with ⟨w, hw, hcw⟩
  rcases List.mem_map.mp hw with ⟨x, _, hx⟩
  subst hx
  unfold word32hexL at hcw
  simp only [List.mem_cons, List.not_mem_nil, or_false] at hcw
  rcases hcw with h | h | h | h | h | h | h | h
  all_goals subst h
  all_goals exact hexChar_mem _

/-- Claim C5: `generate_tag` is a pure function of the source tree — any
two listings of the same tree (permutations of the same path/content
pairs, paths distinct as in a filesystem) produce the identical tag; the
tag is the SHA-256 of the concatenation of file contents sorted by path
truncated to 12 lowercase hex characters (12 characters, all lowercase
hex, by construction over the implemented SHA-256); and a caller-supplied
tag overrides the generated one in the image reference
`<registry>/<repo>:<tag>`. -/
theorem generate_tag_props :
    (∀ t1 t2 : SourceTree, t1.Perm t2 → (t1.map Prod.fst).Nodup →
      generate_tag t1 = generate_tag t2) ∧
    (∀ t : SourceTree, (generate_tag t).length = 12 ∧
      (generate_tag t).data.all
        (fun c => hexAlphabet.contains c) = true) ∧
    (∀ (registry tg : String) (t : SourceTree),
      image_ref registry (some tg) t = registry ++ ":" ++ tg) ∧
    (∀ (registry : String) (t : SourceTree),
      image_ref registry none t = registry ++ ":" ++ generate_tag t) := by
  refine ⟨?_, ?_, fun _ _ _ => rfl, fun _ _ => rfl⟩
  · intro t1 t2 hp hn
    unfold generate_tag concatTree
    rw [sortByPath_eq_of_perm t1 t2 hp hn]
  · intro t
    constructor
    · show ((sha256hexL (concatTree t)).take 12).length = 12
      rw [List.length_take, sha256hexL_length]
      decide
    · rw [List.all_eq_true]
      intro c hc
      have hmem := sha256hexL_mem (concatTree t) c (List.take_subset 12 _ hc)
      exact List.elem_iff.mpr hmem

/-- Witness for C5: two listings of the same two-file tree with distinct
paths get the same tag. -/
theorem generate_tag_props_witness :
    generate_tag [("a.py", [1, 2]), ("b.py", [3])] =
      generate_tag [("b.py", [3]), ("a.py", [1, 2])] :=
  generate_tag_props.1 [("a.py", [1, 2]), ("b.py", [3])]
    [("b.py", [3]), ("a.py", [1, 2])] (by decide) (by decide)

/-! ## Claim C2 — manifest YAML round trip -/

theorem resourceFormatOk_ne_empty {v : String} (h : resourceFormatOk v = true) : v ≠ "" := by
  intro he
  subst he
  exact absurd h (by decide)

theorem parseResources_of_lookup (spec : List (String × Yaml)) (r : ResourceLimits)
    (hval : r.valid = true)
    (hlook : ylookup spec "resources" =
      if r.has_any then some (resourcesDict r) else none) :
    parseResources spec = .ok r := by
  unfold parseResources
  rw [hlook]
  obtain ⟨cl, ml, cr, mr⟩ := r
  simp only [ResourceLimits.valid, checkResField] at hval
  rcases cl with _ | v1 <;> rcases ml with _ | v2 <;> rcases cr with _ | v3 <;>
    rcases mr with _ | v4 <;>
    simp_all [parseResources.readPair, resourcesDict, resLimitsEntries,
      resRequestsEntries, resEntry, ResourceLimits.has_any, ResourceLimits.has_limits,
      ResourceLimits.has_requests, ylookup, parseStrOpt, mkResourceLimits, checkResField,
      resourceFormatOk_ne_empty]

theorem parseToleration_dict (t : Toleration) :
    parseToleration (tolerationToDict t) = .ok t := by
  obtain ⟨k, op, eff, val⟩ := t
  rcases val with _ | v <;>
    simp [parseToleration, tolerationToDict, parseStrD, parseStr, parseStrOpt, ylookup]

theorem parseEach_dicts (ts : List Toleration) :
    parseTolerations.parseEach (ts.map tolerationToDict) = .ok ts := by
  induction ts with
  | nil => rfl
  | cons t rest ih =>
    simp [parseTolerations.parseEach, parseToleration_dict, ih]

theorem parseTolerations_specEntries (m : SpinAppManifest) :
    parseTolerations (specEntries m) =
      .ok (if m.use_spot then DEFAULT_SPOT_TOLERATION :: m.tolerations
           else m.tolerations) := by
  unfold parseTolerations
  rw [spec_lookup_tolerations]
  by_cases hu : m.use_spot
  · rw [if_pos hu, if_pos hu]
    show parseTolerations.parseEach
      ((DEFAULT_SPOT_TOLERATION :: m.tolerations).map tolerationToDict) = _
    rw [parseEach_dicts]
  · rw [if_neg hu, if_neg hu]
    by_cases ht : m.tolerations = []
    · rw [if_neg (by simp [ht]), ht]
    · rw [if_pos ht]
      exact parseEach_dicts m.tolerations

theorem parseStrEntries_ymap (l : List (String × String)) :
    parseStrMap.parseStrEntries (l.map fun p => (p.1, Yaml.str p.2)) = .ok l := by
  induction l with
  | nil => rfl
  | cons p rest ih =>
    obtain ⟨k, v⟩ := p
    simp [parseStrMap.parseStrEntries, ih]

theorem parseStrMap_ymap (l : List (String × String)) :
    parseStrMap (ymapStr l) = .ok l := by
  rw [ymapStr, parseStrMap]
  exact parseStrEntries_ymap l

theorem data_lookup_apiVersion (m : SpinAppManifest) :
    ylookup (dataEntries m) "apiVersion" = some (.str m.api_version) := by
  simp [dataEntries, ylookup]

theorem data_lookup_kind (m : SpinAppManifest) :
    ylookup (dataEntries m) "kind" = some (.str m.kind) := by
  simp [dataEntries, ylookup]

theorem data_lookup_metadata (m : SpinAppManifest) :
    ylookup (dataEntries m) "metadata" = some (.map (metaEntries m)) := by
  simp [dataEntries, ylookup]

theorem data_lookup_spec (m : SpinAppManifest) :
    ylookup (dataEntries m) "spec" = some (.map (specEntries m)) := by
  simp [dataEntries, ylookup]

/-- Claim C2: for every valid manifest configuration (and a
service-account that is not the falsy empty string, which the serializer
would drop), `from_yaml` after `to_yaml` succeeds and returns a manifest
equal to the original in `name`, `namespace`, `image`, `replicas`,
`service_account`, `resources`, `api_version`, `kind` and
`enable_autoscaling`. -/
theorem manifest_roundtrip (m : SpinAppManifest)
    (hv : validManifest m = true) (hsa : m.service_account ≠ some "") :
    ∃ m', from_yaml (to_yaml m) = .ok m' ∧
      m'.name = m.name ∧ m'.«namespace» = m.«namespace» ∧ m'.image = m.image ∧
      m'.replicas = m.replicas ∧ m'.service_account = m.service_account ∧
      m'.resources = m.resources ∧ m'.api_version = m.api_version ∧
      m'.kind = m.kind ∧ m'.enable_autoscaling = m.enable_autoscaling := by
  have hv' := hv
  simp only [validManifest, Bool.and_eq_true, decide_eq_true_eq] at hv'
  obtain ⟨⟨⟨⟨hname, himage⟩, hresv⟩, hconf⟩, hrep⟩ := hv'
  have hauto : parseBoolD (ylookup (specEntries m) "enableAutoscaling") true =
      .ok m.enable_autoscaling := by
    rw [spec_lookup_autoscaling]
    rfl
  have hrepl : parseIntOpt (ylookup (specEntries m) "replicas") = .ok m.replicas := by
    rw [spec_lookup_replicas]
    cases hb : m.enable_autoscaling
    · cases hr : m.replicas <;> simp [parseIntOpt]
    · have hnone : m.replicas = none := by
        cases hr : m.replicas with
        | none => rfl
        | some n =>
          rw [hb, hr] at hconf
          simp at hconf
      simp [parseIntOpt, hnone]
  have hres : parseResources (specEntries m) = .ok m.resources :=
    parseResources_of_lookup _ _ hresv (spec_lookup_resources m)
  have hsacc : parseStrOpt (ylookup (specEntries m) "serviceAccountName") =
      .ok m.service_account := by
    rw [spec_lookup_serviceAccount]
    cases hs : m.service_account with
    | none => rfl
    | some s =>
      have hne : s ≠ "" := fun hh => hsa (by rw [hs, hh])
      simp [parseStrOpt, hne]
  have hlab : (match ylookup (metaEntries m) "labels" with
      | none => .ok [("app.kubernetes.io/managed-by", "blue-faas")]
      | some v => parseStrMap v :
        Except ManifestParseError (List (String × String))) =
      .ok (if m.labels ≠ [] then m.labels
           else [("app.kubernetes.io/managed-by", "blue-faas")]) := by
    rw [meta_lookup_labels]
    by_cases hl : m.labels = []
    · simp [hl]
    · simp [hl, parseStrMap_ymap]
  have hpod : (match ylookup (specEntries m) "podLabels" with
      | none => .ok [("faas", "true")]
      | some v => parseStrMap v :
        Except ManifestParseError (List (String × String))) =
      .ok (if m.pod_labels ≠ [] then m.pod_labels else [("faas", "true")]) := by
    rw [spec_lookup_podLabels]
    by_cases hp : m.pod_labels = []
    · simp [hp]
    · simp [hp, parseStrMap_ymap]
  have hrepsmall :
      (!m.enable_autoscaling &&
        (match m.replicas with | some n => decide (n < 1) | none => false)) = false := by
    cases hr : m.replicas with
    | none => simp
    | some n =>
      rw [hr] at hrep
      simp at hrep
      simp [Int.not_lt.mpr hrep]
  have hconf' : (m.enable_autoscaling && m.replicas.isSome) = false := by
    revert hconf
    cases m.enable_autoscaling && m.replicas.isSome <;> simp
  have hmk : ∀ (us : Bool) (tols : List Toleration) (na : Option NodeAffinity)
      (lb pl : List (String × String)),
      mkSpinAppManifest m.name m.«namespace» m.image m.replicas m.service_account
        m.resources m.api_version m.kind m.enable_autoscaling us tols na lb pl =
      .ok { name := m.name, image := m.image, «namespace» := m.«namespace»,
            replicas := m.replicas, service_account := m.service_account,
            resources := m.resources, api_version := m.api_version,
            kind := m.kind, enable_autoscaling := m.enable_autoscaling,
            use_spot := us, tolerations := tols, node_affinity := na,
            labels := lb, pod_labels := pl } := by
    intro us tols na lb pl
    unfold mkSpinAppManifest
    rw [if_neg hname, if_neg himage, if_neg (by rw [hrepsmall]; exact Bool.false_ne_true),
      if_neg (by rw [hconf']; exact Bool.false_ne_true)]
  simp only [to_yaml, from_yaml, data_lookup_metadata, data_lookup_spec,
    meta_lookup_name, spec_lookup_image, fromYamlSpec, hres, hauto, hrepl,
    hsacc, hlab, hpod, data_lookup_apiVersion, data_lookup_kind,
    meta_lookup_namespace, parseStrD, parseStr, parseTolerations_specEntries, hmk]
  exact ⟨_, rfl, rfl, rfl, rfl, rfl, rfl, rfl, rfl, rfl, rfl⟩

/-- Claim C2 counterexample: a valid configuration whose
`service_account` is the empty string (falsy but set) loses that field —
`to_yaml` drops falsy `serviceAccountName`, so `from_yaml` returns
`None` for it. -/
theorem manifest_roundtrip_counterexample :
    validManifest { name := "n", image := "i", service_account := some "" } = true ∧
    (from_yaml (to_yaml { name := "n", image := "i", service_account := some "" })).map
      (fun m => m.service_account) = .ok none ∧
    ({ name := "n", image := "i", service_account := some "" } :
      SpinAppManifest).service_account = some "" := by
  decide

/-- Witness for C2 (amended) at a concrete valid configuration
exercising replicas, service account and resources. -/
theorem manifest_roundtrip_witness :
    ∃ m', from_yaml (to_yaml
        { name := "n", «namespace» := "ns", image := "r/x:1",
          enable_autoscaling := false, replicas := some 2,
          service_account := some "sa", use_spot := false,
          resources := { cpu_limit := some "100m", memory_request := some "128Mi" } }) =
      .ok m' ∧
      m'.name = "n" ∧ m'.«namespace» = "ns" ∧ m'.image = "r/x:1" ∧
      m'.replicas = some 2 ∧ m'.service_account = some "sa" ∧
      m'.resources = { cpu_limit := some "100m", memory_request := some "128Mi" } ∧
      m'.api_version = "core.spinkube.dev/v1alpha1" ∧ m'.kind = "SpinApp" ∧
      m'.enable_autoscaling = false :=
  manifest_roundtrip
    { name := "n", «namespace» := "ns", image := "r/x:1",
      enable_autoscaling := false, replicas := some 2,
      service_account := some "sa", use_spot := false,
      resources := { cpu_limit := some "100m", memory_request := some "128Mi" } }
    (by decide) (by decide)
